import Mathlib

/-!
# Western Blacksmith — verification of the simulation core

A shallow embedding of the Western Blacksmith simulation systems
(InventorySystem, CoalSystem, CraftingSystem, ToolDurability, BlueprintSystem,
WorkerSystem, ContractSystem, StorefrontSystem, EventEmitter) together with
proofs about the claims of the specification.

Modelling conventions:
* JavaScript numbers are modelled as exact rationals (`ℚ`); all arithmetic in
  the relevant code paths is addition/subtraction/comparison, which the
  embedding mirrors exactly.
* A JavaScript object used as a numeric dictionary (`materials`, `items`) is
  modelled as a total function `String → ℚ` that is `0` outside its domain;
  this also captures JavaScript truthiness tests such as
  `!this.materials[name]`, which hold exactly when the stored value is `0` or
  the key is absent.
* `Object.entries(...)` of a required-materials object is modelled as an
  association list `List (String × ℚ)`; keys of an actual JavaScript object
  are pairwise distinct, which is carried as a `Nodup` hypothesis where it
  matters.
* Event emission is modelled as appending to an event log carried in the
  state.  Bus listeners that can affect the modelled state are inlined at the
  emission site exactly as the wired game dispatches them (for example the
  CraftingSystem listener on the coal-updated event that pauses the active
  craft when the level is not positive).  Listeners that only touch the
  excluded UI layer are represented by the logged event alone.
* Randomized behaviour (contract generation) is abstracted by an oracle
  parameter; the claims settled here are quantified over every oracle answer.
-/

namespace WB

/-- A tool durability record, `\x7b uses, maxUses \x7d` in the source. -/
structure ToolRec where
  uses : ℚ
  maxUses : ℚ
  deriving DecidableEq, Repr

/-- An item definition from `data/items.js`.  Optional source fields are
`Option`s; the JavaScript `||` defaulting (which also replaces `0`) is applied
at the use sites, exactly as in the source. -/
structure ItemData where
  name : String
  category : String
  complexity : String
  craftingTime : ℚ
  basePrice : ℚ
  requiredMaterials : List (String × ℚ)
  requiredTools : List String
  coalUsage : Option ℚ
  batchSize : Option ℚ
  unlocked : Bool
  createsTool : Option String
  blueprintPrice : Option ℚ
  deriving DecidableEq, Repr

/-- A contract as carried by the ContractSystem lists. `expiryTime` is an
absolute wall-clock instant (milliseconds in the source, modelled as `ℚ`). -/
structure Contract where
  id : String
  item : String
  itemName : String
  customer : String
  quantity : ℚ
  payout : ℚ
  expiryTime : ℚ
  deriving DecidableEq, Repr

/-- Events published on the bus (the subset of the taxonomy the modelled
systems emit). -/
inductive Ev where
  | inventoryUpdated
  | moneyUpdated (balance : ℚ)
  | toolBroken (tool : String)
  | coalLow (level : ℚ)
  | coalRefilled (level : ℚ)
  | coalUpdated (level : ℚ)
  | coalConsumed (amount : ℚ)
  | craftingStarted (itemId : String)
  | craftingQueued (itemId : String)
  | craftingProgress (itemId : String) (progress : ℚ) (total : ℚ)
  | craftingPaused (itemId : String) (reason : String)
  | craftingQueueEmpty
  | craftingQueueUpdated
  | itemCrafted (itemId : String) (quantity : ℚ)
  | storefrontAddRequest (itemId : String) (quantity : ℚ)
  | storefrontUpdated
  | blueprintUnlocked (itemId : String)
  | contractAvailable (c : Contract)
  | contractExpired (c : Contract)
  | workerRefillCoal (workerName : String)
  | workerResting (workerId : String)
  | workerWorking (workerId : String)
  | notifyError (msg : String)
  | notifyInfo (msg : String)
  | notifySuccess (msg : String)
  | notifyWarning (msg : String)
  deriving DecidableEq, Repr

/-- An in-flight crafting job (`craftingJob` object in `CraftingSystem.js`). -/
structure Job where
  itemId : String
  name : String
  craftingTime : ℚ
  progress : ℚ
  quantity : ℚ
  workerId : Option String
  paused : Bool
  pauseReason : Option String
  item : ItemData
  deriving DecidableEq, Repr

/-- The combined mutable state of the wired game systems that the modelled
methods read and write: the InventorySystem fields, the CoalSystem fields, the
CraftingSystem fields, the (mutable) item catalog, and the event log. -/
structure Shop where
  materials : String → ℚ
  items : String → ℚ
  tools : String → Option ToolRec
  money : ℚ
  coalLevel : ℚ
  coalWarned : Bool
  currentCraft : Option Job
  queue : List Job
  speedMul : ℚ
  autoAddToStorefront : Bool
  itemsData : String → Option ItemData
  log : List Ev

/-- Pointwise update of a string-keyed numeric dictionary. -/
def setVal (m : String → ℚ) (k : String) (v : ℚ) : String → ℚ :=
  fun n => if n = k then v else m n

/-- Append one event to the log. -/
def logEv (s : Shop) (e : Ev) : Shop :=
  { s with log := s.log ++ [e] }

/-! ## InventorySystem -/

/-- `InventorySystem.addMaterial(name, amount)`. -/
def addMaterial (name : String) (amount : ℚ) (s : Shop) : Shop × Bool :=
  if amount ≤ 0 then (s, false)
  else
    (logEv { s with materials := setVal s.materials name (s.materials name + amount) }
      .inventoryUpdated, true)

/-- `InventorySystem.removeMaterial(name, amount)`.  The source guard
`!this.materials[name] || this.materials[name] < amount` is the disjunction
below under the value-`0`-for-absent convention. -/
def removeMaterial (name : String) (amount : ℚ) (s : Shop) : Shop × Bool :=
  if s.materials name = 0 ∨ s.materials name < amount then (s, false)
  else
    (logEv { s with materials := setVal s.materials name (s.materials name - amount) }
      .inventoryUpdated, true)

/-- `InventorySystem.hasMaterials(requiredMaterials)` (pure check). -/
def hasMaterials (m : String → ℚ) (req : List (String × ℚ)) : Bool :=
  req.all fun p => decide (¬ (m p.1 = 0 ∨ m p.1 < p.2))

/-- `InventorySystem.consumeMaterials(requiredMaterials)`: all-or-nothing
check followed by the in-place debit loop. -/
def consumeMaterials (req : List (String × ℚ)) (s : Shop) : Shop × Bool :=
  if hasMaterials s.materials req then
    (logEv { s with
        materials := req.foldl (fun acc p => setVal acc p.1 (acc p.1 - p.2)) s.materials }
      .inventoryUpdated, true)
  else (s, false)

/-- `InventorySystem.addItem(itemName, amount)`. -/
def addItem (name : String) (amount : ℚ) (s : Shop) : Shop × Bool :=
  if amount ≤ 0 then (s, false)
  else
    (logEv { s with items := setVal s.items name (s.items name + amount) }
      .inventoryUpdated, true)

/-- `InventorySystem.removeItem(itemName, amount)`.  The explicit
`delete`-on-zero of the source is the identity under the `0`-for-absent
convention. -/
def removeItem (name : String) (amount : ℚ) (s : Shop) : Shop × Bool :=
  if s.items name = 0 ∨ s.items name < amount then (s, false)
  else
    (logEv { s with items := setVal s.items name (s.items name - amount) }
      .inventoryUpdated, true)

/-- Default tool durabilities of `InventorySystem.addOrReplaceTool`. -/
def defaultDurability (toolName : String) : ℚ :=
  if toolName = "hammer" then 30
  else if toolName = "anvil" then 50
  else if toolName = "tongs" then 40
  else if toolName = "chisel" then 25
  else if toolName = "file" then 35
  else 30

/-- `InventorySystem.addOrReplaceTool(toolName, maxUses)`. -/
def addOrReplaceTool (toolName : String) (maxUses : Option ℚ) (s : Shop) :
    Shop × Bool :=
  let mu := match maxUses with
    | some v => v
    | none => defaultDurability toolName
  (logEv { s with
      tools := fun n => if n = toolName then some ⟨mu, mu⟩ else s.tools n }
    .inventoryUpdated, true)

/-- `InventorySystem.useTool(toolName, usesAmount)`: decrement durability,
delete the tool and publish a broken-tool event at `uses ≤ 0`. -/
def useTool (toolName : String) (usesAmount : ℚ) (s : Shop) : Shop × Bool :=
  match s.tools toolName with
  | none => (s, false)
  | some t =>
    let newUses := t.uses - usesAmount
    if newUses ≤ 0 then
      (logEv (logEv { s with tools := fun n => if n = toolName then none else s.tools n }
        (.toolBroken toolName)) .inventoryUpdated, true)
    else
      (logEv { s with
          tools := fun n => if n = toolName then some ⟨newUses, t.maxUses⟩ else s.tools n }
        .inventoryUpdated, true)

/-- `InventorySystem.addMoney(amount)`. -/
def addMoney (amount : ℚ) (s : Shop) : Shop × Bool :=
  if amount ≤ 0 then (s, false)
  else (logEv { s with money := s.money + amount } (.moneyUpdated (s.money + amount)), true)

/-- `InventorySystem.removeMoney(amount)`. -/
def removeMoney (amount : ℚ) (s : Shop) : Shop × Bool :=
  if amount ≤ 0 ∨ s.money < amount then (s, false)
  else (logEv { s with money := s.money - amount } (.moneyUpdated (s.money - amount)), true)

/-- The starting inventory of the `InventorySystem` constructor. -/
def initialMaterials : String → ℚ := fun n =>
  if n = "iron" then 50
  else if n = "coal" then 25
  else if n = "wood" then 30
  else if n = "leather" then 10
  else if n = "gunpowder" then 5
  else if n = "copper" then 20
  else if n = "silver" then 5
  else if n = "gold" then 1
  else 0

def initialItems : String → ℚ := fun n =>
  if n = "pickaxe" then 1
  else if n = "hatchet" then 1
  else if n = "horseshoe" then 2
  else 0

def initialTools : String → Option ToolRec := fun n =>
  if n = "hammer" then some ⟨25, 30⟩
  else if n = "anvil" then some ⟨50, 50⟩
  else if n = "tongs" then some ⟨40, 40⟩
  else none

/-! ## ToolDurability -/

/-- `itemData.category || 'metal'` (empty string is the only falsy `String`
value reachable for this field). -/
def categoryOrDefault (i : ItemData) : String :=
  if i.category = "" then "metal" else i.category

/-- `itemData.complexity || 'medium'`. -/
def complexityOrDefault (i : ItemData) : String :=
  if i.complexity = "" then "medium" else i.complexity

/-- `ToolDurability.toolRequirements[category] || ['hammer']`. -/
def toolRequirementsFor (category : String) : List String :=
  if category = "metal" then ["hammer", "tongs", "anvil"]
  else if category = "weapon" then ["hammer", "tongs", "anvil", "file"]
  else if category = "wood" then ["saw", "hammer"]
  else if category = "leather" then ["needle", "scissors"]
  else ["hammer"]

/-- `ToolDurability.toolUsageCosts[complexity] || 1`. -/
def toolUsageCost (complexity : String) : ℚ :=
  if complexity = "simple" then 1
  else if complexity = "medium" then 2
  else if complexity = "complex" then 3
  else 1

/-- `ToolDurability.getMissingTools(itemData)`. -/
def getMissingTools (s : Shop) (i : ItemData) : List String :=
  (toolRequirementsFor (categoryOrDefault i)).filter fun t => (s.tools t).isNone

/-- `ToolDurability.useToolsForItem(itemData)`: wear every required tool that
is present (absent tools are skipped). -/
def useToolsForItem (s : Shop) (i : ItemData) : Shop :=
  let usageAmount := toolUsageCost (complexityOrDefault i)
  (toolRequirementsFor (categoryOrDefault i)).foldl
    (fun acc t => if (acc.tools t).isSome then (useTool t usageAmount acc).1 else acc) s

/-! ## CoalSystem

Constants from the constructor: `depletionRate = 0.5`, `lowThreshold = 20`,
`coalPerRefill = 5`. -/

/-- `CoalSystem.hasEnoughCoal(requiredLevel = 20)`. -/
def hasEnoughCoal (s : Shop) (requiredLevel : ℚ := 20) : Bool :=
  requiredLevel ≤ s.coalLevel

/-- `CraftingSystem.pauseCrafting(reason)`. -/
def pauseCrafting (reason : String) (s : Shop) : Shop :=
  match s.currentCraft with
  | none => s
  | some j =>
    logEv { s with currentCraft := some { j with paused := true, pauseReason := some reason } }
      (.craftingPaused j.itemId reason)

/-- Publication of the coal-updated event: the logged event plus the one
registered listener that can change the modelled state, the CraftingSystem
subscription that pauses the active craft when the level is not positive. -/
def busCoalUpdated (s : Shop) : Shop :=
  let s1 := logEv s (.coalUpdated s.coalLevel)
  if s1.coalLevel ≤ 0 ∧ s1.currentCraft.isSome then
    pauseCrafting "Not enough coal" s1
  else s1

/-- `CoalSystem.refill()`. -/
def coalRefill (s : Shop) : Shop × Bool :=
  if s.materials "coal" < 5 then
    (logEv s (.notifyError "Not enough coal available to refill the forge."), false)
  else if 100 ≤ s.coalLevel then
    (logEv s (.notifyInfo "The forge is already full of coal."), false)
  else
    let (s1, ok) := removeMaterial "coal" 5 s
    if ok then
      let s2 := { s1 with coalLevel := 100, coalWarned := false }
      (busCoalUpdated (logEv s2 (.coalRefilled 100)), true)
    else (s1, false)

/-- `CoalSystem.update()`: deplete by the fixed rate when the level is
positive, clamp at `0`, warn once at or below the threshold, then attempt the
auto-refill, then publish the level. -/
def coalUpdate (s : Shop) : Shop :=
  if 0 < s.coalLevel then
    let lv := s.coalLevel - 1/2
    let lv := if lv < 0 then 0 else lv
    let s1 := { s with coalLevel := lv }
    let s2 :=
      if s1.coalLevel ≤ 20 ∧ s1.coalWarned = false then
        logEv { s1 with coalWarned := true } (.coalLow s1.coalLevel)
      else s1
    let s3 :=
      if s2.coalLevel ≤ 20 ∧ 5 ≤ s2.materials "coal" then (coalRefill s2).1
      else s2
    busCoalUpdated s3
  else s

/-- `CoalSystem.consumeCoal(amount)`. -/
def consumeCoal (amount : ℚ) (s : Shop) : Shop × Bool :=
  if s.coalLevel < amount then (s, false)
  else
    let lv := s.coalLevel - amount
    let lv := if lv < 0 then 0 else lv
    let s1 := { s with coalLevel := lv }
    let s2 :=
      if s1.coalLevel ≤ 20 ∧ s1.coalWarned = false then
        logEv { s1 with coalWarned := true } (.coalLow s1.coalLevel)
      else s1
    (busCoalUpdated (logEv s2 (.coalConsumed amount)), true)

/-! ## CraftingSystem -/

/-- `itemData.batchSize || 1`. -/
def batchSizeOrDefault (i : ItemData) : ℚ :=
  match i.batchSize with
  | some b => if b = 0 then 1 else b
  | none => 1

/-- `itemData.coalUsage || 5`. -/
def coalUsageOrDefault (i : ItemData) : ℚ :=
  match i.coalUsage with
  | some c => if c = 0 then 5 else c
  | none => 5

/-- The material-consumption loop of `CraftingSystem.startCrafting`: each
required material is debited scaled by the requested quantity; a failing
debit aborts the loop (leaving the earlier debits in place). -/
def debitMaterials (req : List (String × ℚ)) (quantity : ℚ) (s : Shop) :
    Shop × Bool :=
  match req with
  | [] => (s, true)
  | p :: rest =>
    let (s1, ok) := removeMaterial p.1 (p.2 * quantity) s
    if ok then debitMaterials rest quantity s1 else (s1, false)

/-- `CraftingSystem.startCrafting(itemId, quantity, workerId)`. -/
def startCrafting (s : Shop) (itemId : String) (quantity : ℚ)
    (workerId : Option String) : Shop × Bool :=
  match s.itemsData itemId with
  | none => (logEv s (.notifyError "Unknown item"), false)
  | some itemData =>
    if itemData.unlocked = false then
      (logEv s (.notifyError "Blueprint not unlocked"), false)
    else if getMissingTools s itemData ≠ [] then
      (logEv s (.notifyError "Missing tools"), false)
    else if hasMaterials s.materials itemData.requiredMaterials = false then
      (logEv s (.notifyError "Not enough materials"), false)
    else if hasEnoughCoal s = false then
      (logEv s (.notifyError "Not enough coal in the forge"), false)
    else
      let actualQuantity := batchSizeOrDefault itemData * quantity
      let (s1, ok) := debitMaterials itemData.requiredMaterials quantity s
      if ok = false then (s1, false)
      else
        let (s2, _) := consumeCoal (coalUsageOrDefault itemData) s1
        let job : Job :=
          { itemId := itemId, name := itemData.name,
            craftingTime := itemData.craftingTime, progress := 0,
            quantity := actualQuantity, workerId := workerId,
            paused := false, pauseReason := none, item := itemData }
        if s2.currentCraft.isSome then
          (logEv { s2 with queue := s2.queue ++ [job] } (.craftingQueued itemId), true)
        else
          (logEv { s2 with currentCraft := some job } (.craftingStarted itemId), true)

/-- `CraftingSystem.completeCrafting()`. -/
def completeCrafting (s : Shop) : Shop :=
  match s.currentCraft with
  | none => s
  | some job =>
    let s1 := useToolsForItem s job.item
    let s2 :=
      match job.item.createsTool with
      | some toolName =>
        logEv (addOrReplaceTool toolName none s1).1 (.notifySuccess "Crafted a new tool")
      | none =>
        let sA := (addItem job.itemId job.quantity s1).1
        let sB := logEv (logEv sA (.itemCrafted job.itemId job.quantity))
          (.notifySuccess "Crafted")
        if sB.autoAddToStorefront then
          logEv sB (.storefrontAddRequest job.itemId job.quantity)
        else sB
    let s3 := { s2 with currentCraft := none }
    match s3.queue with
    | next :: rest =>
      logEv { s3 with currentCraft := some next, queue := rest } (.craftingStarted next.itemId)
    | [] => logEv s3 .craftingQueueEmpty

/-- `CraftingSystem.update()`: promote the queue head when idle, then (in the
same call) advance the active job, pausing on insufficient coal and
completing at full progress. -/
def craftingUpdate (s : Shop) : Shop :=
  let s0 :=
    match s.currentCraft with
    | none =>
      match s.queue with
      | j :: rest => logEv { s with currentCraft := some j, queue := rest } (.craftingStarted j.itemId)
      | [] => s
    | some _ => s
  match s0.currentCraft with
  | none => s0
  | some job =>
    if job.paused then s0
    else
      let job1 := { job with progress := job.progress + 1 * s0.speedMul }
      let s1 := { s0 with currentCraft := some job1 }
      if hasEnoughCoal s1 = false then pauseCrafting "Not enough coal" s1
      else if job1.craftingTime ≤ job1.progress then completeCrafting s1
      else logEv s1 (.craftingProgress job1.itemId job1.progress job1.craftingTime)

/-- `CraftingSystem.cancelQueuedCraft(index)`: refund the per-unit material
amounts of the stored recipe, then remove the queue entry. -/
def cancelQueuedCraft (index : ℕ) (s : Shop) : Shop × Bool :=
  match s.queue.get? index with
  | none => (s, false)
  | some job =>
    let s1 := job.item.requiredMaterials.foldl
      (fun acc p => (addMaterial p.1 p.2 acc).1) s
    let s2 := { s1 with queue := s1.queue.eraseIdx index }
    (logEv (logEv s2 (.notifyInfo "Removed from crafting queue")) .craftingQueueUpdated, true)

/-- `CraftingSystem.canCraft(itemId)`: the validation chain of
`startCrafting` without mutation; returns the success flag and the reason. -/
def canCraft (s : Shop) (itemId : String) : Bool × String :=
  match s.itemsData itemId with
  | none => (false, "Unknown item")
  | some itemData =>
    if itemData.unlocked = false then (false, "Blueprint not unlocked")
    else if getMissingTools s itemData ≠ [] then (false, "Missing tools")
    else if hasMaterials s.materials itemData.requiredMaterials = false then
      (false, "Not enough materials")
    else if hasEnoughCoal s = false then (false, "Not enough coal")
    else (true, "")

/-! ## Item catalog (`data/items.js`) -/

def horseshoeData : ItemData :=
  { name := "Horseshoe", category := "metal", complexity := "simple",
    craftingTime := 30, basePrice := 5,
    requiredMaterials := [("iron", 2), ("coal", 1)],
    requiredTools := ["hammer", "tongs", "anvil"], coalUsage := some 5,
    batchSize := none, unlocked := true, createsTool := none,
    blueprintPrice := none }

def nailData : ItemData :=
  { name := "Nail", category := "metal", complexity := "simple",
    craftingTime := 10, basePrice := 1/4,
    requiredMaterials := [("iron", 1/5)],
    requiredTools := ["hammer", "anvil"], coalUsage := some 2,
    batchSize := some 10, unlocked := true, createsTool := none,
    blueprintPrice := none }

def hingeData : ItemData :=
  { name := "Hinge", category := "metal", complexity := "simple",
    craftingTime := 25, basePrice := 2,
    requiredMaterials := [("iron", 1)],
    requiredTools := ["hammer", "tongs", "anvil"], coalUsage := some 3,
    batchSize := none, unlocked := true, createsTool := none,
    blueprintPrice := none }

def pickaxeData : ItemData :=
  { name := "Pickaxe", category := "metal", complexity := "medium",
    craftingTime := 60, basePrice := 15,
    requiredMaterials := [("iron", 4), ("wood", 1)],
    requiredTools := ["hammer", "tongs", "anvil", "saw"], coalUsage := some 8,
    batchSize := none, unlocked := true, createsTool := none,
    blueprintPrice := none }

def hatchetData : ItemData :=
  { name := "Hatchet", category := "metal", complexity := "medium",
    craftingTime := 45, basePrice := 12,
    requiredMaterials := [("iron", 3), ("wood", 1)],
    requiredTools := ["hammer", "tongs", "anvil", "saw"], coalUsage := some 7,
    batchSize := none, unlocked := true, createsTool := none,
    blueprintPrice := none }

def knifeData : ItemData :=
  { name := "Knife", category := "metal", complexity := "medium",
    craftingTime := 40, basePrice := 8,
    requiredMaterials := [("iron", 3/2), ("wood", 1/2), ("leather", 1/2)],
    requiredTools := ["hammer", "tongs", "anvil", "file"], coalUsage := some 5,
    batchSize := none, unlocked := true, createsTool := none,
    blueprintPrice := none }

def potData : ItemData :=
  { name := "Iron Pot", category := "metal", complexity := "medium",
    craftingTime := 50, basePrice := 10,
    requiredMaterials := [("iron", 5)],
    requiredTools := ["hammer", "tongs", "anvil"], coalUsage := some 10,
    batchSize := none, unlocked := true, createsTool := none,
    blueprintPrice := none }

def rifleData : ItemData :=
  { name := "Rifle", category := "weapon", complexity := "complex",
    craftingTime := 120, basePrice := 45,
    requiredMaterials := [("iron", 8), ("wood", 2)],
    requiredTools := ["hammer", "tongs", "anvil", "file", "saw", "chisel"],
    coalUsage := some 15, batchSize := none, unlocked := false,
    createsTool := none, blueprintPrice := some 50 }

def revolverData : ItemData :=
  { name := "Revolver", category := "weapon", complexity := "complex",
    craftingTime := 100, basePrice := 35,
    requiredMaterials := [("iron", 5), ("wood", 1)],
    requiredTools := ["hammer", "tongs", "anvil", "file", "chisel"],
    coalUsage := some 12, batchSize := none, unlocked := false,
    createsTool := none, blueprintPrice := some 40 }

def bulletsData : ItemData :=
  { name := "Bullets", category := "weapon", complexity := "medium",
    craftingTime := 30, basePrice := 1/2,
    requiredMaterials := [("iron", 1/2), ("gunpowder", 1/2)],
    requiredTools := ["tongs", "hammer"], coalUsage := some 2,
    batchSize := some 10, unlocked := false, createsTool := none,
    blueprintPrice := some 25 }

def decorativeHorseshoeData : ItemData :=
  { name := "Decorative Horseshoe", category := "metal", complexity := "medium",
    craftingTime := 45, basePrice := 12,
    requiredMaterials := [("iron", 2), ("copper", 1/2)],
    requiredTools := ["hammer", "tongs", "anvil", "chisel", "file"],
    coalUsage := some 6, batchSize := none, unlocked := false,
    createsTool := none, blueprintPrice := some 15 }

def beltBuckleData : ItemData :=
  { name := "Belt Buckle", category := "metal", complexity := "medium",
    craftingTime := 35, basePrice := 8,
    requiredMaterials := [("iron", 1), ("copper", 1/2)],
    requiredTools := ["hammer", "tongs", "anvil", "chisel", "file"],
    coalUsage := some 4, batchSize := none, unlocked := false,
    createsTool := none, blueprintPrice := some 10 }

def silverCandelabraData : ItemData :=
  { name := "Silver Candelabra", category := "metal", complexity := "complex",
    craftingTime := 90, basePrice := 65,
    requiredMaterials := [("silver", 3), ("iron", 1)],
    requiredTools := ["hammer", "tongs", "anvil", "chisel", "file"],
    coalUsage := some 10, batchSize := none, unlocked := false,
    createsTool := none, blueprintPrice := some 35 }

def newHammerData : ItemData :=
  { name := "Hammer", category := "tool", complexity := "simple",
    craftingTime := 40, basePrice := 10,
    requiredMaterials := [("iron", 2), ("wood", 1)],
    requiredTools := ["tongs", "anvil"], coalUsage := some 5,
    batchSize := none, unlocked := true, createsTool := some "hammer",
    blueprintPrice := none }

def newTongsData : ItemData :=
  { name := "Tongs", category := "tool", complexity := "simple",
    craftingTime := 30, basePrice := 15,
    requiredMaterials := [("iron", 3)],
    requiredTools := ["hammer", "anvil"], coalUsage := some 6,
    batchSize := none, unlocked := true, createsTool := some "tongs",
    blueprintPrice := none }

def newFileData : ItemData :=
  { name := "File", category := "tool", complexity := "medium",
    craftingTime := 35, basePrice := 8,
    requiredMaterials := [("iron", 3/2)],
    requiredTools := ["hammer", "tongs", "anvil"], coalUsage := some 4,
    batchSize := none, unlocked := true, createsTool := some "file",
    blueprintPrice := none }

def newChiselData : ItemData :=
  { name := "Chisel", category := "tool", complexity := "medium",
    craftingTime := 30, basePrice := 15/2,
    requiredMaterials := [("iron", 1), ("wood", 1/2)],
    requiredTools := ["hammer", "tongs", "anvil", "file"], coalUsage := some 3,
    batchSize := none, unlocked := true, createsTool := some "chisel",
    blueprintPrice := none }

/-- The `items` export of `data/items.js` as a lookup function. -/
def gameItems : String → Option ItemData := fun id =>
  if id = "horseshoe" then some horseshoeData
  else if id = "nail" then some nailData
  else if id = "hinge" then some hingeData
  else if id = "pickaxe" then some pickaxeData
  else if id = "hatchet" then some hatchetData
  else if id = "knife" then some knifeData
  else if id = "pot" then some potData
  else if id = "rifle" then some rifleData
  else if id = "revolver" then some revolverData
  else if id = "bullets" then some bulletsData
  else if id = "decorativeHorseshoe" then some decorativeHorseshoeData
  else if id = "belt_buckle" then some beltBuckleData
  else if id = "silverCandelabra" then some silverCandelabraData
  else if id = "new_hammer" then some newHammerData
  else if id = "new_tongs" then some newTongsData
  else if id = "new_file" then some newFileData
  else if id = "new_chisel" then some newChiselData
  else none

/-- The `Game` constructor state of the modelled systems before any player
action: constructor values of InventorySystem, CoalSystem and CraftingSystem
over the item catalog. -/
def initialShop : Shop :=
  { materials := initialMaterials, items := initialItems, tools := initialTools,
    money := 100, coalLevel := 100, coalWarned := false, currentCraft := none,
    queue := [], speedMul := 1, autoAddToStorefront := false,
    itemsData := gameItems, log := [] }

/-! ## BlueprintSystem -/

/-- The BlueprintSystem state: the unlocked-id set together with the shared
mutable item catalog whose `unlocked` flags it maintains. -/
structure BPState where
  unlockedBlueprints : String → Bool
  itemsData : String → Option ItemData
  log : List Ev

/-- `BlueprintSystem.unlockBlueprint(itemId)`. -/
def unlockBlueprint (s : BPState) (itemId : String) : BPState × Bool :=
  if s.unlockedBlueprints itemId then (s, false)
  else
    match s.itemsData itemId with
    | none => (s, false)
    | some itemData =>
      ({ unlockedBlueprints := fun i => if i = itemId then true else s.unlockedBlueprints i,
         itemsData := fun i => if i = itemId then some { itemData with unlocked := true }
           else s.itemsData i,
         log := s.log ++ [.blueprintUnlocked itemId] }, true)

/-! ## EventEmitter (`utils/EventEmitter.js`)

A listener is a function on an abstract world state that either returns
normally or throws: the returned state is whatever the callback left behind
(a throwing callback may have mutated before throwing), paired with the
thrown error, if any.  `emit` wraps every invocation in try/catch, recording
the error instead of propagating it. -/

/-- A registered listener: an identifier (registration token) and its
callback. -/
structure RegListener (W : Type) where
  id : ℕ
  fn : W → W × Option String

/-- The `events` map of the emitter: event name to listener array, in Map
insertion order. -/
def Emitter (W : Type) : Type := List (String × List (RegListener W))

/-- `EventEmitter.on(eventName, callback)`: get-or-create the listener array
and push the callback at its end. -/
def emOn {W : Type} (em : Emitter W) (name : String) (l : RegListener W) :
    Emitter W :=
  match em with
  | [] => [(name, [l])]
  | (n, ls) :: rest =>
    if n = name then (n, ls ++ [l]) :: rest
    else (n, ls) :: emOn rest name l

/-- `this.events.get(eventName)` (`none` when the key is absent). -/
def emGet {W : Type} (em : Emitter W) (name : String) :
    Option (List (RegListener W)) :=
  match em with
  | [] => none
  | (n, ls) :: rest => if n = name then some ls else emGet rest name

/-- The currently registered listeners for an event name. -/
def emRegistered {W : Type} (em : Emitter W) (name : String) :
    List (RegListener W) :=
  (emGet em name).getD []

/-- `EventEmitter.emit(eventName, ...)`: iterate the listener array with
try/catch around each callback (the `forEach` loop), returning the final
world, the invocation trace (listener id and caught error, in invocation
order) and `listeners.length > 0`. -/
def emit {W : Type} (em : Emitter W) (name : String) (w : W) :
    W × List (ℕ × Option String) × Bool :=
  match emGet em name with
  | none => (w, [], false)
  | some ls =>
    let r := ls.foldl
      (fun (acc : W × List (ℕ × Option String)) l =>
        let (w1, err) := l.fn acc.1
        (w1, acc.2 ++ [(l.id, err)]))
      (w, [])
    (r.1, r.2, decide (0 < ls.length))

/-- Reference semantics for a listener list: run every listener in order,
threading the world through all of them and recording each caught error. -/
def runListeners {W : Type} : List (RegListener W) → W → W × List (ℕ × Option String)
  | [], w => (w, [])
  | l :: rest, w =>
    let (w1, err) := l.fn w
    let (w2, tr) := runListeners rest w1
    (w2, (l.id, err) :: tr)

/-! ## ContractSystem (`ContractSystem.js`)

Randomized standard-contract generation (`contractsData.generate` plus the
payout computation) is abstracted by an oracle argument giving the generated
contract, or `none` for the generation-failure paths; the settled claims are
quantified over every oracle answer. -/

structure ContractState where
  active : List Contract
  special : List Contract
  timer : ℕ
  log : List Ev

/-- `ContractSystem.generateContract()`: capped at `maxContracts = 3`
standard contracts; on success the contract is appended and offered. -/
def generateContract (gen : Option Contract) (cs : ContractState) :
    ContractState :=
  if 3 ≤ cs.active.length then cs
  else
    match gen with
    | none => cs
    | some c =>
      { cs with
        active := cs.active ++ [c]
        log := cs.log ++ [.contractAvailable c] }

/-- `ContractSystem.checkExpiredContracts()`: drop every standard and special
contract whose expiry has passed and report each one. -/
def checkExpiredContracts (now : ℚ) (cs : ContractState) : ContractState :=
  let expired := cs.active.filter (fun c => decide (c.expiryTime ≤ now))
    ++ cs.special.filter (fun c => decide (c.expiryTime ≤ now))
  { cs with
    active := cs.active.filter (fun c => decide (¬ c.expiryTime ≤ now)),
    special := cs.special.filter (fun c => decide (¬ c.expiryTime ≤ now)),
    log := cs.log ++ expired.flatMap
      (fun c => [.contractExpired c, .notifyWarning "Contract expired"]) }

/-- `ContractSystem.update()`: advance the generation timer, generate at the
interval (`contractInterval = 180`), then sweep expired contracts. -/
def contractsUpdate (now : ℚ) (gen : Option Contract) (cs : ContractState) :
    ContractState :=
  let t := cs.timer + 1
  let cs1 :=
    if 180 ≤ t then generateContract gen { cs with timer := 0 }
    else { cs with timer := t }
  checkExpiredContracts now cs1

/-! ## WorkerSystem (`WorkerSystem.js`) -/

structure WorkerType where
  speedMultiplier : ℚ
  fatigueRate : ℚ
  recoveryRate : ℚ
  maxFatigue : ℚ
  baseSalary : ℚ
  hireCost : ℚ
  deriving DecidableEq, Repr

/-- The `apprentice` worker type. -/
def apprenticeType : WorkerType :=
  { speedMultiplier := 4/5, fatigueRate := 6/5, recoveryRate := 1,
    maxFatigue := 100, baseSalary := 5, hireCost := 20 }

/-- The `journeyman` worker type. -/
def journeymanType : WorkerType :=
  { speedMultiplier := 1, fatigueRate := 1, recoveryRate := 6/5,
    maxFatigue := 120, baseSalary := 8, hireCost := 50 }

/-- The `master` worker type. -/
def masterType : WorkerType :=
  { speedMultiplier := 13/10, fatigueRate := 4/5, recoveryRate := 3/2,
    maxFatigue := 150, baseSalary := 15, hireCost := 100 }

inductive WTask where
  | crafting (itemId : String)
  | coal
  deriving DecidableEq, Repr

structure Worker where
  id : String
  name : String
  wtype : WorkerType
  fatigue : ℚ
  currentTask : Option WTask
  status : String
  resting : Bool
  highFatigueWarning : Bool
  wasResting : Bool
  deriving DecidableEq, Repr

/-- `WorkerSystem.increaseFatigue(workerId, worker)`: task-dependent
increment, cap at the type maximum, one-shot high-fatigue warning at 80% of
the maximum. -/
def increaseFatigue (s : Shop) (w : Worker) : Shop × Worker :=
  let inc : ℚ :=
    match w.currentTask with
    | some (.crafting _) => 1/5 * w.wtype.fatigueRate
    | some .coal => 1/20
    | none => 1/10
  let f1 := w.fatigue + inc
  let f2 := if w.wtype.maxFatigue < f1 then w.wtype.maxFatigue else f1
  let w1 := { w with fatigue := f2 }
  if w.wtype.maxFatigue * (4/5) ≤ f2 ∧ w1.highFatigueWarning = false then
    (logEv s (.notifyWarning "getting very tired"),
      { w1 with highFatigueWarning := true })
  else (s, w1)

/-- `WorkerSystem.recoverFatigue(workerId, worker)`. -/
def recoverFatigue (s : Shop) (w : Worker) : Shop × Worker :=
  let f1 := w.fatigue - 1/5 * w.wtype.recoveryRate
  let f2 := if f1 < 0 then 0 else f1
  let hfw := if f2 < w.wtype.maxFatigue * (1/2) then false else w.highFatigueWarning
  let w1 := { w with fatigue := f2, highFatigueWarning := hfw }
  let (s2, w2) :=
    if w1.fatigue = 0 ∧ w1.wasResting then
      (logEv s (.notifyInfo "fully rested"), { w1 with wasResting := false })
    else (s, w1)
  if 0 < w2.fatigue then (s2, { w2 with wasResting := true }) else (s2, w2)

/-- The listener of the worker-refill-coal event in `CoalSystem`: refill, and
acknowledge the worker on success. -/
def busWorkerRefillCoal (s : Shop) (workerName : String) : Shop :=
  let s1 := logEv s (.workerRefillCoal workerName)
  let (s2, ok) := coalRefill s1
  if ok then logEv s2 (.notifyInfo "has refilled the forge with coal") else s2

/-- `WorkerSystem.handleCraftingTask(workerId, worker)`: when the production
queue is fully idle, start the task item at the worker speed (temporarily
overriding the crafting speed multiplier); on a failed precondition check the
task is cleared. -/
def handleCraftingTask (s : Shop) (w : Worker) (itemId : String) :
    Shop × Worker :=
  if s.currentCraft = none ∧ s.queue = [] then
    let r := canCraft s itemId
    if r.1 then
      let orig := s.speedMul
      let s1 := { s with speedMul := w.wtype.speedMultiplier }
      let s2 := (startCrafting s1 itemId 1 (some w.id)).1
      ({ s2 with speedMul := orig }, w)
    else
      (logEv s (.notifyWarning "cannot craft"),
        { w with currentTask := none, status := "idle" })
  else (s, w)

/-- `WorkerSystem.handleCoalTask(workerId, worker)`. -/
def handleCoalTask (s : Shop) (w : Worker) : Shop :=
  if s.coalLevel ≤ 20 then busWorkerRefillCoal s w.name else s

/-- `WorkerSystem.updateWorker(workerId, worker)`: rest recovery, forced rest
at maximum fatigue, task handling, then fatigue accrual.  A worker with no
assigned task returns before the accrual step. -/
def updateWorker (s : Shop) (w : Worker) : Shop × Worker :=
  if w.resting then recoverFatigue s w
  else if w.wtype.maxFatigue ≤ w.fatigue then
    let w1 := { w with resting := true, status := "Resting", currentTask := none }
    let s1 := logEv (logEv s (.workerResting w.id)) (.notifyWarning "too fatigued")
    (s1, w1)
  else
    match w.currentTask with
    | none => (s, w)
    | some t =>
      let (s1, w1) :=
        match t with
        | .crafting itemId => handleCraftingTask s w itemId
        | .coal => (handleCoalTask s w, w)
      increaseFatigue s1 w1

/-! ## StorefrontSystem (`StorefrontSystem.js`) -/

/-- A storefront listing (`lastSold`, a timestamp never read by the modelled
paths, is omitted). -/
structure Listing where
  quantity : ℚ
  price : ℚ
  deriving DecidableEq, Repr

/-- The storefront state, together with the `InventorySystem.items`
dictionary it moves stock against.  A price-modifier dictionary entry of `0`
encodes both an absent key and a stored zero, matching the JavaScript
truthiness guard at the use site. -/
structure SFState where
  inv : String → ℚ
  listings : String → Option Listing
  priceGlobal : ℚ
  priceByCategory : String → ℚ
  priceByItem : String → ℚ
  itemsData : String → Option ItemData
  log : List Ev

/-- The debit part of `InventorySystem.removeItem` as called from the
storefront. -/
def dictRemove (m : String → ℚ) (name : String) (amount : ℚ) :
    (String → ℚ) × Bool :=
  if m name = 0 ∨ m name < amount then (m, false)
  else (setVal m name (m name - amount), true)

/-- `StorefrontSystem.getItemBasePrice(itemId)`. -/
def getItemBasePrice (sf : SFState) (itemId : String) : ℚ :=
  match sf.itemsData itemId with
  | some d => d.basePrice
  | none => 0

/-- `StorefrontSystem.getItemPrice(itemId)`: base price through the
global/category/item modifier chain, entirely replaced by a truthy stored
listing price. -/
def getItemPrice (sf : SFState) (itemId : String) : ℚ :=
  let p1 := getItemBasePrice sf itemId * sf.priceGlobal
  let p2 :=
    match sf.itemsData itemId with
    | some d =>
      if d.category ≠ "" ∧ sf.priceByCategory d.category ≠ 0 then
        p1 * sf.priceByCategory d.category
      else p1
    | none => p1
  let p3 := if sf.priceByItem itemId ≠ 0 then p2 * sf.priceByItem itemId else p2
  match sf.listings itemId with
  | some l => if l.price ≠ 0 then l.price else p3
  | none => p3

/-- `StorefrontSystem.addItemToStorefront(itemId, quantity)`. -/
def addItemToStorefront (sf : SFState) (itemId : String) (quantity : ℚ) :
    SFState × Bool :=
  let (inv1, ok) := dictRemove sf.inv itemId quantity
  if ok = false then
    ({ sf with log := sf.log ++ [.notifyError "Not enough in inventory"] }, false)
  else
    let l0 :=
      match sf.listings itemId with
      | some l => l
      | none => { quantity := 0, price := getItemBasePrice sf itemId }
    let l1 := { l0 with quantity := l0.quantity + quantity }
    ({ sf with
        inv := inv1
        listings := fun i => if i = itemId then some l1 else sf.listings i
        log := sf.log ++ [.inventoryUpdated, .storefrontUpdated,
          .notifyInfo "Added to storefront"] }, true)

/-- `StorefrontSystem.setItemPrice(itemId, price)`. -/
def setItemPrice (sf : SFState) (itemId : String) (price : ℚ) :
    SFState × Bool :=
  match sf.listings itemId with
  | none => (sf, false)
  | some l =>
    ({ sf with
        listings := fun i => if i = itemId then some { l with price := price }
          else sf.listings i
        log := sf.log ++ [.storefrontUpdated] }, true)

/-- `StorefrontSystem.setPriceModifier(type, value, target)` restricted to
its three cases. -/
def setPriceModifiers (sf : SFState) (global : ℚ) (byCategory : String → ℚ)
    (byItem : String → ℚ) : SFState :=
  { sf with
    priceGlobal := global
    priceByCategory := byCategory
    priceByItem := byItem }

/-! ## Reference semantics of the tool dictionary (`getTools` aliasing)

`InventorySystem.getTools` returns `\x7b ...this.tools \x7d`: a new top-level
object whose property values are the same `\x7b uses, maxUses \x7d` record
references as the ledger's own `tools` object.  To reason about this the
records live in an explicit heap: the ledger's `tools` object is an
association of tool names to heap addresses, and the spread copy duplicates
the association spine while keeping the addresses. -/

/-- The heap of tool records. -/
abbrev ToolHeap : Type := List ToolRec

/-- The ledger's `tools` object: names bound to record references. -/
abbrev ToolRefs : Type := List (String × ℕ)

/-- `getTools()`: the spread `\x7b ...this.tools \x7d` copies the name-to-
reference spine; the referenced records are shared. -/
def getToolsShallow (refs : ToolRefs) : ToolRefs := refs

/-- A client write `toolsCopy[name].uses = v` through a record reference. -/
def heapWriteUses (h : ToolHeap) (addr : ℕ) (v : ℚ) : ToolHeap :=
  match h.get? addr with
  | some t => h.set addr { t with uses := v }
  | none => h

/-- The ledger's observation of a stored tool's `uses` through its own
`tools` object. -/
def ledgerToolUses (refs : ToolRefs) (h : ToolHeap) (name : String) :
    Option ℚ :=
  (List.lookup name refs).bind fun addr => (h.get? addr).map ToolRec.uses

/-- `ToolDurability.repairTool(toolName, repairAmount)`: reads the shallow
`getTools()` copy and assigns `tools[toolName].uses` through the shared
record reference. -/
def repairTool (refs : ToolRefs) (h : ToolHeap) (toolName : String)
    (repairAmount : ℚ) : ToolHeap × Bool :=
  let toolsCopy := getToolsShallow refs
  match List.lookup toolName toolsCopy with
  | none => (h, false)
  | some addr =>
    match h.get? addr with
    | none => (h, false)
    | some t =>
      let newDurability := min (t.uses + repairAmount) t.maxUses
      (h.set addr { t with uses := newDurability }, true)

/-- A one-tool ledger used to exhibit the `getTools` aliasing: the hammer
record `\x7b uses := 25, maxUses := 30 \x7d` lives at heap address `0`. -/
def aliasHeap : ToolHeap := [⟨25, 30⟩]

/-- The ledger's `tools` object for `aliasHeap`. -/
def aliasRefs : ToolRefs := [("hammer", 0)]

/-- A concrete storefront used as the C10 witness: ten nails in stock,
nothing listed, neutral modifiers. -/
def witnessStore : SFState :=
  { inv := setVal (fun _ => 0) "nail" 10, listings := fun _ => none,
    priceGlobal := 1, priceByCategory := fun _ => 0, priceByItem := fun _ => 0,
    itemsData := gameItems, log := [] }

/-- A contract whose expiry (`1000`) is one wall-clock hour before the update
instant used in the C8 witness. -/
def expiredContract : Contract :=
  { id := "c1", item := "horseshoe", itemName := "Horseshoe",
    customer := "Mining Company", quantity := 5, payout := 30,
    expiryTime := 1000 }

/-- A contract board holding only the expired contract, with the generation
timer far from its interval. -/
def boardWithExpired : ContractState :=
  { active := [expiredContract], special := [], timer := 0, log := [] }

/-- One call of the InventorySystem mutation API considered by C1. -/
inductive LedgerCall where
  | addM (name : String) (amount : ℚ)
  | removeM (name : String) (amount : ℚ)
  | consumeM (req : List (String × ℚ))

/-- Apply one call (dropping the returned flag). -/
def applyLedgerCall (s : Shop) : LedgerCall → Shop
  | .addM n a => (addMaterial n a s).1
  | .removeM n a => (removeMaterial n a s).1
  | .consumeM req => (consumeMaterials req s).1

/-- Well-formedness of a call: the required-materials argument of
`consumeMaterials` is an `Object.entries` image, so its keys are pairwise
distinct. -/
def LedgerCallWF : LedgerCall → Prop
  | .consumeM req => (req.map Prod.fst).Nodup
  | _ => True

/-- A sequence of API calls applied to a state. -/
def runLedgerCalls (s : Shop) (calls : List LedgerCall) : Shop :=
  calls.foldl applyLedgerCall s

/-- All stored material quantities are nonnegative. -/
def matNonneg (s : Shop) : Prop := ∀ n, 0 ≤ s.materials n

/-- The concrete call sequence used in the C1 witness: an over-debit that
must fail, a successful batch consumption, and a plain addition. -/
def witnessCalls : List LedgerCall :=
  [LedgerCall.removeM "iron" 60,
   LedgerCall.consumeM [("iron", 2), ("coal", 3)],
   LedgerCall.addM "wood" (5/2)]

/-- The forge state used to refute the claimed refill/warn exclusivity:
level `20.5` (so one tick lands exactly on the threshold), warned-flag clear,
and a full coal stock (`25`) in the inventory. -/
def coalStateC4 : Shop := { initialShop with coalLevel := 41/2 }

/-- The crafting job that `startCrafting("nail", q, w)` creates. -/
def nailJob (q : ℚ) (w : Option String) : Job :=
  { itemId := "nail", name := "Nail", craftingTime := 10, progress := 0,
    quantity := 10 * q, workerId := w, paused := false, pauseReason := none,
    item := nailData }

/-- The shop after starting one nail batch (becomes the active job). -/
def c5afterFirst : Shop := (startCrafting initialShop "nail" 1 none).1

/-- The shop after then requesting two further nail batches: the job is
queued behind the active one, debiting `0.2 × 2 = 0.4` iron. -/
def c5afterSecond : Shop := (startCrafting c5afterFirst "nail" 2 none).1

/-- The shop after cancelling the queued job. -/
def c5Canceled : Shop := (cancelQueuedCraft 0 c5afterSecond).1

/-- A hired apprentice with no assigned task, not resting, zero fatigue. -/
def idleWorker : Worker :=
  { id := "w1", name := "John Smith", wtype := apprenticeType, fatigue := 0,
    currentTask := none, status := "Idle", resting := false,
    highFatigueWarning := false, wasResting := false }

/-- The idle apprentice assigned to coal monitoring. -/
def coalTaskWorker : Worker := { idleWorker with currentTask := some WTask.coal }

/-! ## Theorems -/

@[simp] theorem setVal_same (m : String → ℚ) (k : String) (v : ℚ) :
    setVal m k v k = v := by simp [setVal]

@[simp] theorem setVal_other (m : String → ℚ) (k n : String) (v : ℚ)
    (h : n ≠ k) : setVal m k v n = m n := by simp [setVal, h]

@[simp] theorem logEv_materials (s : Shop) (e : Ev) :
    (logEv s e).materials = s.materials := rfl
@[simp] theorem logEv_items (s : Shop) (e : Ev) :
    (logEv s e).items = s.items := rfl
@[simp] theorem logEv_tools (s : Shop) (e : Ev) :
    (logEv s e).tools = s.tools := rfl
@[simp] theorem logEv_coalLevel (s : Shop) (e : Ev) :
    (logEv s e).coalLevel = s.coalLevel := rfl
@[simp] theorem logEv_coalWarned (s : Shop) (e : Ev) :
    (logEv s e).coalWarned = s.coalWarned := rfl
@[simp] theorem logEv_currentCraft (s : Shop) (e : Ev) :
    (logEv s e).currentCraft = s.currentCraft := rfl
@[simp] theorem logEv_queue (s : Shop) (e : Ev) :
    (logEv s e).queue = s.queue := rfl
@[simp] theorem logEv_speedMul (s : Shop) (e : Ev) :
    (logEv s e).speedMul = s.speedMul := rfl
@[simp] theorem logEv_itemsData (s : Shop) (e : Ev) :
    (logEv s e).itemsData = s.itemsData := rfl
@[simp] theorem logEv_money (s : Shop) (e : Ev) :
    (logEv s e).money = s.money := rfl
@[simp] theorem logEv_autoAdd (s : Shop) (e : Ev) :
    (logEv s e).autoAddToStorefront = s.autoAddToStorefront := rfl

/-- C7: `unlockBlueprint` is idempotent: for every item id, a second call
leaves the unlocked-blueprint set and the item data exactly as the first call
left them, returns `false`, and mutates nothing. -/
theorem C7_unlockBlueprint_idempotent (s : BPState) (itemId : String) :
    (unlockBlueprint (unlockBlueprint s itemId).1 itemId).1 =
      (unlockBlueprint s itemId).1 ∧
    (unlockBlueprint (unlockBlueprint s itemId).1 itemId).2 = false := by
  by_cases h1 : s.unlockedBlueprints itemId
  · simp [unlockBlueprint, h1]
  · cases h2 : s.itemsData itemId with
    | none => simp [unlockBlueprint, h1, h2]
    | some d => simp [unlockBlueprint, h1, h2]

/-- Helper for C2: the try/catch `forEach` loop of `emit` agrees with the
structural run of the listener list, for every starting trace accumulator. -/
theorem emit_foldl_eq_runListeners {W : Type} (ls : List (RegListener W))
    (w : W) (acc : List (ℕ × Option String)) :
    ls.foldl
      (fun (a : W × List (ℕ × Option String)) l =>
        let (w1, err) := l.fn a.1
        (w1, a.2 ++ [(l.id, err)]))
      (w, acc) =
    ((runListeners ls w).1, acc ++ (runListeners ls w).2) := by
  induction ls generalizing w acc with
  | nil => simp [runListeners]
  | cons l rest ih =>
    simp only [List.foldl_cons, runListeners]
    rw [ih]
    simp

/-- Helper for C2: the structural run invokes exactly the given listeners, in
order, whether or not any of them throws. -/
theorem runListeners_trace_ids {W : Type} (ls : List (RegListener W)) (w : W) :
    (runListeners ls w).2.map Prod.fst = ls.map RegListener.id := by
  induction ls generalizing w with
  | nil => simp [runListeners]
  | cons l rest ih => simp [runListeners, ih]

/-- Helper for C2: `on` appends the new callback at the end of the listener
array for its event name. -/
theorem emOn_registered {W : Type} (em : Emitter W) (name : String)
    (l : RegListener W) :
    emRegistered (emOn em name l) name = emRegistered em name ++ [l] := by
  induction em with
  | nil => simp [emOn, emRegistered, emGet]
  | cons p rest ih =>
    by_cases h : p.1 = name
    · simp [emOn, emRegistered, emGet, h]
    · simpa [emOn, emRegistered, emGet, h] using ih

/-- C2: `emit` invokes every currently registered listener for the event
name, synchronously and in registration order, before returning (the
invocation trace lists exactly the registered listeners in order, so a
listener that throws never prevents a later listener from running); the final
world is obtained by threading the state through all listeners with each
thrown exception caught and recorded instead of propagated; the returned flag
is `true` exactly when at least one listener is registered; and registration
by `on` appends in order. -/
theorem C2_emit_delivery {W : Type} (em : Emitter W) (name : String) (w : W) :
    ((emit em name w).2.1.map Prod.fst =
      (emRegistered em name).map RegListener.id) ∧
    (emit em name w).1 = (runListeners (emRegistered em name) w).1 ∧
    (emit em name w).2.1 = (runListeners (emRegistered em name) w).2 ∧
    ((emit em name w).2.2 = true ↔ emRegistered em name ≠ []) ∧
    (∀ l : RegListener W,
      emRegistered (emOn em name l) name = emRegistered em name ++ [l]) := by
  have hmain :
      (emit em name w).1 = (runListeners (emRegistered em name) w).1 ∧
      (emit em name w).2.1 = (runListeners (emRegistered em name) w).2 ∧
      ((emit em name w).2.2 = true ↔ emRegistered em name ≠ []) := by
    cases hg : emGet em name with
    | none => simp [emit, hg, emRegistered, runListeners]
    | some ls =>
      have hfold := emit_foldl_eq_runListeners ls w []
      constructor
      · simp [emit, hg, emRegistered, hfold]
      constructor
      · simp [emit, hg, emRegistered, hfold]
      · simp [emit, hg, emRegistered]
        constructor
        · intro h
          exact List.ne_nil_of_length_pos h
        · intro h
          exact List.length_pos.mpr h
  refine ⟨?_, hmain.1, hmain.2.1, hmain.2.2, fun l => emOn_registered em name l⟩
  rw [hmain.2.1]
  exact runListeners_trace_ids _ w

/-- C9 counterexample: mutating the nested per-tool record reached through
the object returned by `getTools` changes the ledger's stored tool (`uses`
drops from 25 to 5), so the accessor is not a defensive copy at the nested
level. -/
theorem C9_counterexample :
    ledgerToolUses aliasRefs
      (heapWriteUses aliasHeap
        ((List.lookup "hammer" (getToolsShallow aliasRefs)).getD 0) 5)
      "hammer" = some 5 ∧
    ledgerToolUses aliasRefs aliasHeap "hammer" = some 25 := by
  constructor <;> rfl

/-- C9 (amended): `getTools` returns a new top-level object whose nested
per-tool records are shared with the ledger: writing `uses` through a record
obtained from the returned object is visible to the ledger, and
`ToolDurability.repairTool` performs exactly such an aliased write, clamping
at `maxUses`. -/
theorem C9_getTools_aliasing (refs : ToolRefs) (h : ToolHeap) (name : String)
    (addr : ℕ) (t : ToolRec) (v amt : ℚ)
    (hlook : List.lookup name refs = some addr)
    (hget : h.get? addr = some t) :
    ledgerToolUses refs (heapWriteUses h addr v) name = some v ∧
    (repairTool refs h name amt).2 = true ∧
    ledgerToolUses refs (repairTool refs h name amt).1 name =
      some (min (t.uses + amt) t.maxUses) := by
  have hget2 : h[addr]? = some t := by
    rw [← List.get?_eq_getElem?]
    exact hget
  have hlt : addr < h.length := by
    by_contra hge
    rw [List.getElem?_eq_none (Nat.le_of_not_lt hge)] at hget2
    exact Option.noConfusion hget2
  have hset : ∀ u : ToolRec, (h.set addr u)[addr]? = some u := fun u =>
    List.getElem?_set_eq_of_lt u (by simpa using hlt)
  refine ⟨?_, ?_, ?_⟩
  · simp [ledgerToolUses, heapWriteUses, hlook, hget, hget2, hset]
  · simp [repairTool, getToolsShallow, hlook, hget, hget2]
  · simp [repairTool, getToolsShallow, hlook, hget, hget2, ledgerToolUses, hset]

/-- C9 witness: the amended aliasing statement instantiated on the concrete
one-tool ledger. -/
theorem C9_getTools_aliasing_witness :
    ledgerToolUses aliasRefs (heapWriteUses aliasHeap 0 5) "hammer" = some 5 ∧
    ledgerToolUses aliasRefs (repairTool aliasRefs aliasHeap "hammer" 3).1
      "hammer" = some (min (25 + 3 : ℚ) 30) :=
  ⟨(C9_getTools_aliasing aliasRefs aliasHeap "hammer" 0 ⟨25, 30⟩ 5 3
      (by rfl) (by rfl)).1,
   (C9_getTools_aliasing aliasRefs aliasHeap "hammer" 0 ⟨25, 30⟩ 5 3
      (by rfl) (by rfl)).2.2⟩

/-- C10: `addItemToStorefront` stores the catalog base price in a newly
created listing, `getItemPrice` returns a nonzero stored listing price
unchanged, and consequently the global, category and per-item modifiers have
no effect on the sale price of a listed item with a nonzero base price until
the listing price is explicitly changed. -/
theorem C10_listing_price_overrides_modifiers (sf : SFState) (itemId : String)
    (qty : ℚ) :
    (sf.listings itemId = none → (addItemToStorefront sf itemId qty).2 = true →
      (addItemToStorefront sf itemId qty).1.listings itemId =
        some ⟨qty, getItemBasePrice sf itemId⟩) ∧
    (∀ l : Listing, sf.listings itemId = some l → l.price ≠ 0 →
      getItemPrice sf itemId = l.price) ∧
    (∀ global byCategory byItem,
      sf.listings itemId = none → getItemBasePrice sf itemId ≠ 0 →
      (addItemToStorefront sf itemId qty).2 = true →
      getItemPrice
        (setPriceModifiers (addItemToStorefront sf itemId qty).1
          global byCategory byItem) itemId
        = getItemBasePrice sf itemId) := by
  refine ⟨?_, ?_, ?_⟩
  · intro hnone hok
    rcases hdr : dictRemove sf.inv itemId qty with ⟨inv1, ok⟩
    simp only [addItemToStorefront, hdr] at hok ⊢
    cases ok with
    | false => simp at hok
    | true => simp [hnone]
  · intro l hl hp
    simp [getItemPrice, hl, hp]
  · intro global byCategory byItem hnone hbase hok
    rcases hdr : dictRemove sf.inv itemId qty with ⟨inv1, ok⟩
    simp only [addItemToStorefront, hdr] at hok ⊢
    cases ok with
    | false => simp at hok
    | true => simp [hnone, getItemPrice, setPriceModifiers, hbase]

/-- C10 witness: adding a nail listing stores the catalog base price `0.25`,
and arbitrary concrete modifiers (here a doubled global price) do not change
the computed sale price. -/
theorem C10_listing_price_overrides_modifiers_witness :
    (addItemToStorefront witnessStore "nail" 3).1.listings "nail" =
      some ⟨3, getItemBasePrice witnessStore "nail"⟩ ∧
    getItemPrice
      (setPriceModifiers (addItemToStorefront witnessStore "nail" 3).1
        2 (fun c => if c = "metal" then 3 else 0) (fun i => if i = "nail" then 5 else 0))
      "nail" = getItemBasePrice witnessStore "nail" := by
  have h := C10_listing_price_overrides_modifiers witnessStore "nail" 3
  have hok : (addItemToStorefront witnessStore "nail" 3).2 = true := by
    simp [addItemToStorefront, dictRemove, witnessStore, setVal]
    norm_num
  have hnd : witnessStore.itemsData "nail" = some nailData := rfl
  have hb : getItemBasePrice witnessStore "nail" = 1/4 := by
    simp [getItemBasePrice, hnd, nailData]
  refine ⟨h.1 rfl hok, h.2.2 2 _ _ rfl (by rw [hb]; norm_num) hok⟩

/-- Helper for C8: the expiry sweep removes exactly the contracts whose
expiry has passed and reports each of them. -/
theorem checkExpiredContracts_spec (cs : ContractState) (now : ℚ) :
    (∀ c : Contract,
      c ∈ (checkExpiredContracts now cs).active ∨
        c ∈ (checkExpiredContracts now cs).special → now < c.expiryTime) ∧
    (∀ c : Contract, c ∈ cs.active ∨ c ∈ cs.special → c.expiryTime ≤ now →
      c ∉ (checkExpiredContracts now cs).active ∧
      c ∉ (checkExpiredContracts now cs).special ∧
      Ev.contractExpired c ∈ (checkExpiredContracts now cs).log) := by
  constructor
  · intro c hc
    rcases hc with hc | hc <;>
      simpa [checkExpiredContracts, List.mem_filter, not_le] using
        (List.mem_filter.mp hc).2
  · intro c hc hexp
    refine ⟨?_, ?_, ?_⟩
    · intro hmem
      have := (List.mem_filter.mp hmem).2
      simp [hexp] at this
    · intro hmem
      have := (List.mem_filter.mp hmem).2
      simp [hexp] at this
    · have hin : c ∈ cs.active.filter (fun c => decide (c.expiryTime ≤ now))
          ++ cs.special.filter (fun c => decide (c.expiryTime ≤ now)) := by
        rcases hc with hc | hc
        · exact List.mem_append_left _ (List.mem_filter.mpr ⟨hc, by simp [hexp]⟩)
        · exact List.mem_append_right _ (List.mem_filter.mpr ⟨hc, by simp [hexp]⟩)
      simp only [checkExpiredContracts, List.mem_append, List.mem_flatMap]
      exact Or.inr ⟨c, List.mem_append.mp hin, by simp⟩

/-- Helper for C8: contract generation only appends to the standard list and
leaves the special list unchanged. -/
theorem generateContract_mono (gen : Option Contract) (cs : ContractState) :
    (∀ c : Contract, c ∈ cs.active → c ∈ (generateContract gen cs).active) ∧
    (generateContract gen cs).special = cs.special := by
  unfold generateContract
  split
  · exact ⟨fun c hc => hc, rfl⟩
  · cases gen with
    | none => exact ⟨fun c hc => hc, rfl⟩
    | some c0 => exact ⟨fun c hc => List.mem_append_left _ hc, rfl⟩

/-- C8: every contract, standard or special, whose expiry is not later than
the wall-clock time of the `update()` call is removed by the expiry sweep and
reported with a contract-expired event, for every generation-timer state,
every standard-contract population and every outcome of the generation
oracle; no expired contract survives the update. -/
theorem C8_expired_contracts_removed (cs : ContractState) (now : ℚ)
    (gen : Option Contract) :
    (∀ c : Contract,
      c ∈ (contractsUpdate now gen cs).active ∨
        c ∈ (contractsUpdate now gen cs).special → now < c.expiryTime) ∧
    (∀ c : Contract, c ∈ cs.active ∨ c ∈ cs.special → c.expiryTime ≤ now →
      c ∉ (contractsUpdate now gen cs).active ∧
      c ∉ (contractsUpdate now gen cs).special ∧
      Ev.contractExpired c ∈ (contractsUpdate now gen cs).log) := by
  unfold contractsUpdate
  by_cases ht : 180 ≤ cs.timer + 1
  · simp only [if_pos ht]
    set cs1 := generateContract gen { cs with timer := 0 } with hcs1
    have hmono := generateContract_mono gen { cs with timer := 0 }
    refine ⟨(checkExpiredContracts_spec cs1 now).1, ?_⟩
    intro c hc hexp
    refine (checkExpiredContracts_spec cs1 now).2 c ?_ hexp
    rcases hc with hc | hc
    · exact Or.inl (hmono.1 c hc)
    · exact Or.inr (by rw [hmono.2]; exact hc)
  · simp only [if_neg ht]
    refine ⟨(checkExpiredContracts_spec _ now).1, ?_⟩
    intro c hc hexp
    exact (checkExpiredContracts_spec _ now).2 c hc hexp

/-- C8 witness: on the next update (one hour later, generation oracle empty)
the expired contract is removed and reported. -/
theorem C8_expired_contracts_removed_witness :
    expiredContract ∉ (contractsUpdate 3601000 none boardWithExpired).active ∧
    expiredContract ∉ (contractsUpdate 3601000 none boardWithExpired).special ∧
    Ev.contractExpired expiredContract ∈
      (contractsUpdate 3601000 none boardWithExpired).log :=
  (C8_expired_contracts_removed boardWithExpired 3601000 none).2
    expiredContract (Or.inl (by simp [boardWithExpired]))
    (by norm_num [expiredContract])

/-! ## C1: reachable inventory states -/

theorem addMaterial_nonneg (s : Shop) (n : String) (a : ℚ)
    (h : matNonneg s) : matNonneg (addMaterial n a s).1 := by
  unfold addMaterial
  split
  · exact h
  · rename_i hpos
    intro k
    by_cases hk : k = n
    · subst hk
      simp only [logEv_materials, setVal_same]
      have : 0 < a := lt_of_not_le hpos
      linarith [h k]
    · simpa [setVal, hk] using h k

theorem removeMaterial_nonneg (s : Shop) (n : String) (a : ℚ)
    (h : matNonneg s) : matNonneg (removeMaterial n a s).1 := by
  unfold removeMaterial
  split
  · exact h
  · rename_i hguard
    push_neg at hguard
    intro k
    by_cases hk : k = n
    · subst hk
      simp only [logEv_materials, setVal_same]
      linarith [hguard.2]
    · simpa [setVal, hk] using h k

theorem hasMaterials_cons (m : String → ℚ) (p : String × ℚ)
    (rest : List (String × ℚ)) :
    hasMaterials m (p :: rest) = true ↔
      ¬ (m p.1 = 0 ∨ m p.1 < p.2) ∧ hasMaterials m rest = true := by
  simp [hasMaterials]

theorem hasMaterials_congr (m m' : String → ℚ) (req : List (String × ℚ))
    (hagree : ∀ q ∈ req, m' q.1 = m q.1) :
    hasMaterials m' req = hasMaterials m req := by
  unfold hasMaterials
  induction req with
  | nil => rfl
  | cons q rest ih =>
    simp only [List.all_cons]
    rw [hagree q (List.mem_cons_self q rest),
      ih (fun r hr => hagree r (List.mem_cons_of_mem q hr))]

theorem debitFold_nonneg (req : List (String × ℚ)) :
    ∀ m : String → ℚ, (req.map Prod.fst).Nodup →
      hasMaterials m req = true → (∀ n, 0 ≤ m n) →
      ∀ n, 0 ≤ req.foldl (fun acc p => setVal acc p.1 (acc p.1 - p.2)) m n := by
  induction req with
  | nil =>
    intro m _ _ h0 n
    simpa using h0 n
  | cons p rest ih =>
    intro m hnd hhas h0 n
    simp only [List.map_cons, List.nodup_cons] at hnd
    obtain ⟨hnotin, hndrest⟩ := hnd
    have hp := (hasMaterials_cons m p rest).mp hhas
    push_neg at hp
    obtain ⟨⟨_, hge⟩, hrest⟩ := hp
    set m' := setVal m p.1 (m p.1 - p.2) with hm'
    have h0' : ∀ k, 0 ≤ m' k := by
      intro k
      by_cases hk : k = p.1
      · subst hk
        simp only [hm', setVal_same]
        linarith
      · simpa [hm', setVal, hk] using h0 k
    have hhas' : hasMaterials m' rest = true := by
      rw [hasMaterials_congr m m' rest]
      · exact hrest
      · intro q hq
        have hne : q.1 ≠ p.1 := by
          intro hEq
          exact hnotin (hEq ▸ List.mem_map_of_mem Prod.fst hq)
        simp [hm', setVal, hne]
    simpa using ih m' hndrest hhas' h0' n

theorem consumeMaterials_nonneg (s : Shop) (req : List (String × ℚ))
    (hwf : (req.map Prod.fst).Nodup) (h : matNonneg s) :
    matNonneg (consumeMaterials req s).1 := by
  unfold consumeMaterials
  split
  · rename_i hhas
    intro n
    simpa using debitFold_nonneg req s.materials hwf hhas h n
  · exact h

theorem applyLedgerCall_nonneg (s : Shop) (c : LedgerCall)
    (hwf : LedgerCallWF c) (h : matNonneg s) :
    matNonneg (applyLedgerCall s c) := by
  cases c with
  | addM n a => exact addMaterial_nonneg s n a h
  | removeM n a => exact removeMaterial_nonneg s n a h
  | consumeM req => exact consumeMaterials_nonneg s req hwf h

theorem runLedgerCalls_nonneg (calls : List LedgerCall) :
    ∀ s : Shop, matNonneg s → (∀ c ∈ calls, LedgerCallWF c) →
      matNonneg (runLedgerCalls s calls) := by
  induction calls with
  | nil => intro s h _; exact h
  | cons c rest ih =>
    intro s h hwf
    exact ih (applyLedgerCall s c)
      (applyLedgerCall_nonneg s c (hwf c (List.mem_cons_self c rest)) h)
      (fun d hd => hwf d (List.mem_cons_of_mem c hd))

theorem initialShop_matNonneg : matNonneg initialShop := by
  intro n
  show 0 ≤ initialMaterials n
  unfold initialMaterials
  repeat' split
  all_goals norm_num

/-- C1: from the constructor inventory, every sequence of well-formed
`addMaterial`/`removeMaterial`/`consumeMaterials` calls keeps every stored
material quantity nonnegative; and whenever `removeMaterial` or
`consumeMaterials` returns `false`, the state (in particular every material
quantity) is completely unchanged. -/
theorem C1_material_nonneg_invariant :
    (∀ calls : List LedgerCall, (∀ c ∈ calls, LedgerCallWF c) →
      matNonneg (runLedgerCalls initialShop calls)) ∧
    (∀ (s : Shop) (n : String) (a : ℚ),
      (removeMaterial n a s).2 = false → (removeMaterial n a s).1 = s) ∧
    (∀ (s : Shop) (req : List (String × ℚ)),
      (consumeMaterials req s).2 = false → (consumeMaterials req s).1 = s) := by
  refine ⟨?_, ?_, ?_⟩
  · intro calls hwf
    exact runLedgerCalls_nonneg calls initialShop initialShop_matNonneg hwf
  · intro s n a hfail
    unfold removeMaterial at hfail ⊢
    split at hfail
    · rename_i hg
      rw [if_pos hg]
    · exact Bool.noConfusion hfail
  · intro s req hfail
    unfold consumeMaterials at hfail ⊢
    split at hfail
    · exact Bool.noConfusion hfail
    · rename_i hg
      rw [if_neg hg]

/-- C1 witness: the invariant instantiated on a concrete call sequence and a
concrete material, and the no-mutation guarantee instantiated on the failing
over-debit `removeMaterial("iron", 60)` from the initial inventory. -/
theorem C1_material_nonneg_invariant_witness :
    0 ≤ (runLedgerCalls initialShop witnessCalls).materials "iron" ∧
    (removeMaterial "iron" 60 initialShop).1 = initialShop :=
  ⟨C1_material_nonneg_invariant.1 witnessCalls
      (by
        intro c hc
        fin_cases hc <;> simp [LedgerCallWF])
      "iron",
   C1_material_nonneg_invariant.2.1 initialShop "iron" 60
      (by
        have h50 : initialShop.materials "iron" = 50 := rfl
        simp [removeMaterial, h50]
        norm_num)⟩

/-! ## C4: CoalSystem.update behaviour -/

/-- `pauseCrafting` leaves the materials untouched. -/
@[simp] theorem pauseCrafting_materials (r : String) (s : Shop) :
    (pauseCrafting r s).materials = s.materials := by
  unfold pauseCrafting
  rcases hcc : s.currentCraft with _ | j <;> simp [hcc]

/-- `pauseCrafting` leaves the coal level untouched. -/
@[simp] theorem pauseCrafting_coalLevel (r : String) (s : Shop) :
    (pauseCrafting r s).coalLevel = s.coalLevel := by
  unfold pauseCrafting
  rcases hcc : s.currentCraft with _ | j <;> simp [hcc]

/-- `pauseCrafting` leaves the warned-flag untouched. -/
@[simp] theorem pauseCrafting_coalWarned (r : String) (s : Shop) :
    (pauseCrafting r s).coalWarned = s.coalWarned := by
  unfold pauseCrafting
  rcases hcc : s.currentCraft with _ | j <;> simp [hcc]

/-- `pauseCrafting` never publishes a low-coal event. -/
@[simp] theorem pauseCrafting_count_coalLow (r : String) (s : Shop) (x : ℚ) :
    ((pauseCrafting r s).log).count (Ev.coalLow x) =
      s.log.count (Ev.coalLow x) := by
  unfold pauseCrafting
  rcases hcc : s.currentCraft with _ | j <;> simp [hcc, logEv]

/-- The coal-updated publication leaves the materials untouched. -/
@[simp] theorem busCoalUpdated_materials (s : Shop) :
    (busCoalUpdated s).materials = s.materials := by
  simp only [busCoalUpdated]
  split <;> simp

/-- The coal-updated publication leaves the coal level untouched. -/
@[simp] theorem busCoalUpdated_coalLevel (s : Shop) :
    (busCoalUpdated s).coalLevel = s.coalLevel := by
  simp only [busCoalUpdated]
  split <;> simp

/-- The coal-updated publication leaves the warned-flag untouched. -/
@[simp] theorem busCoalUpdated_coalWarned (s : Shop) :
    (busCoalUpdated s).coalWarned = s.coalWarned := by
  simp only [busCoalUpdated]
  split <;> simp

/-- The coal-updated publication never publishes a low-coal event. -/
@[simp] theorem busCoalUpdated_count_coalLow (s : Shop) (x : ℚ) :
    ((busCoalUpdated s).log).count (Ev.coalLow x) =
      s.log.count (Ev.coalLow x) := by
  simp only [busCoalUpdated]
  split <;> simp [logEv]

/-- `removeMaterial` on a passing guard. -/
theorem removeMaterial_success (name : String) (amount : ℚ) (s : Shop)
    (h : ¬ (s.materials name = 0 ∨ s.materials name < amount)) :
    removeMaterial name amount s =
      (logEv { s with
          materials := setVal s.materials name (s.materials name - amount) }
        .inventoryUpdated, true) := by
  unfold removeMaterial
  rw [if_neg h]

/-- Behaviour of `refill()` when the inventory holds enough coal and the
forge is not full. -/
theorem coalRefill_spec (s : Shop) (hcoal : 5 ≤ s.materials "coal")
    (hlv : s.coalLevel < 100) :
    (coalRefill s).1.coalLevel = 100 ∧
    (coalRefill s).1.materials "coal" = s.materials "coal" - 5 ∧
    (coalRefill s).1.coalWarned = false ∧
    (∀ x : ℚ, ((coalRefill s).1.log).count (Ev.coalLow x) =
      s.log.count (Ev.coalLow x)) ∧
    (coalRefill s).2 = true := by
  have hne : ¬ (s.materials "coal" = 0 ∨ s.materials "coal" < 5) := by
    push_neg
    refine ⟨fun h => by rw [h] at hcoal; norm_num at hcoal, by linarith⟩
  unfold coalRefill
  rw [if_neg (by linarith), if_neg (by linarith),
    removeMaterial_success _ _ _ hne]
  refine ⟨by simp, by simp [logEv], by simp, fun x => by simp [logEv], rfl⟩

/-- C4 (amended): with a positive level, `update()` depletes by the fixed
rate, clamping at `0`; above the threshold nothing else happens; at or below
the threshold the one-time low-coal event is emitted first whenever the
warned-flag is clear — regardless of whether a refill is possible — and only
then does the forge auto-refill, exactly when the inventory holds at least
`coalPerRefill = 5` coal. -/
theorem coalUpdate_spec (s : Shop) (h0 : 0 < s.coalLevel) :
    ∀ lv : ℚ, lv = (if s.coalLevel - 1/2 < 0 then 0 else s.coalLevel - 1/2) →
    (0 ≤ lv) ∧
    (20 < lv →
      coalUpdate s =
        { s with coalLevel := lv, log := s.log ++ [Ev.coalUpdated lv] }) ∧
    (lv ≤ 20 → s.coalWarned = false →
      ((coalUpdate s).log).count (Ev.coalLow lv) =
        (s.log).count (Ev.coalLow lv) + 1) ∧
    (lv ≤ 20 → s.coalWarned = true →
      ∀ x : ℚ, ((coalUpdate s).log).count (Ev.coalLow x) =
        (s.log).count (Ev.coalLow x)) ∧
    (lv ≤ 20 → 5 ≤ s.materials "coal" →
      (coalUpdate s).coalLevel = 100 ∧
      (coalUpdate s).materials "coal" = s.materials "coal" - 5 ∧
      (coalUpdate s).coalWarned = false) ∧
    (lv ≤ 20 → s.materials "coal" < 5 →
      (coalUpdate s).coalLevel = lv ∧
      (coalUpdate s).materials = s.materials ∧
      (coalUpdate s).coalWarned = true) := by
  intro lv hlveq
  have hlv0 : 0 ≤ lv := by
    rw [hlveq]
    split
    · exact le_refl 0
    · rename_i hnl
      linarith [not_lt.mp hnl]
  have key : coalUpdate s = busCoalUpdated
      (if (if lv ≤ 20 ∧ s.coalWarned = false then
            logEv { { s with coalLevel := lv } with coalWarned := true }
              (Ev.coalLow lv)
          else { s with coalLevel := lv }).coalLevel ≤ 20 ∧
          5 ≤ (if lv ≤ 20 ∧ s.coalWarned = false then
            logEv { { s with coalLevel := lv } with coalWarned := true }
              (Ev.coalLow lv)
          else { s with coalLevel := lv }).materials "coal" then
        (coalRefill (if lv ≤ 20 ∧ s.coalWarned = false then
            logEv { { s with coalLevel := lv } with coalWarned := true }
              (Ev.coalLow lv)
          else { s with coalLevel := lv })).1
      else (if lv ≤ 20 ∧ s.coalWarned = false then
            logEv { { s with coalLevel := lv } with coalWarned := true }
              (Ev.coalLow lv)
          else { s with coalLevel := lv })) := by
    subst hlveq
    unfold coalUpdate
    rw [if_pos h0]
  set s2 : Shop := (if lv ≤ 20 ∧ s.coalWarned = false then
      logEv { { s with coalLevel := lv } with coalWarned := true }
        (Ev.coalLow lv)
    else { s with coalLevel := lv }) with hs2def
  have hs2level : s2.coalLevel = lv := by
    rw [hs2def]; split <;> rfl
  have hs2mat : s2.materials = s.materials := by
    rw [hs2def]; split <;> rfl
  refine ⟨hlv0, ?_, ?_, ?_, ?_, ?_⟩
  · -- above the threshold: plain depletion, nothing else
    intro hhi
    have hwfalse : ¬ (lv ≤ 20 ∧ s.coalWarned = false) := by
      rintro ⟨h1, _⟩; linarith
    have hs2 : s2 = { s with coalLevel := lv } := by
      rw [hs2def, if_neg hwfalse]
    rw [key, if_neg (by rw [hs2level]; rintro ⟨h1, _⟩; linarith), hs2]
    simp only [busCoalUpdated]
    rw [if_neg (by
      rintro ⟨h1, _⟩
      simp only [logEv_coalLevel] at h1
      change lv ≤ 0 at h1
      linarith)]
    simp [logEv]
  · -- not yet warned: exactly one new low-coal event
    intro hlo hw
    have hs2 : s2 = logEv { { s with coalLevel := lv } with coalWarned := true }
        (Ev.coalLow lv) := by
      rw [hs2def, if_pos ⟨hlo, hw⟩]
    have hcnt : (s2.log).count (Ev.coalLow lv) =
        (s.log).count (Ev.coalLow lv) + 1 := by
      rw [hs2]; simp [logEv]
    rw [key]
    split
    · rename_i hre
      rw [busCoalUpdated_count_coalLow,
        (coalRefill_spec s2 (by exact hre.2) (by rw [hs2level]; linarith)).2.2.2.1,
        hcnt]
    · rw [busCoalUpdated_count_coalLow, hcnt]
  · -- already warned: no new low-coal event
    intro hlo hw x
    have hs2 : s2 = { s with coalLevel := lv } := by
      rw [hs2def, if_neg (by rintro ⟨_, h2⟩; rw [hw] at h2; exact Bool.noConfusion h2)]
    have hcnt : (s2.log).count (Ev.coalLow x) = (s.log).count (Ev.coalLow x) := by
      rw [hs2]
    rw [key]
    split
    · rename_i hre
      rw [busCoalUpdated_count_coalLow,
        (coalRefill_spec s2 (by exact hre.2) (by rw [hs2level]; linarith)).2.2.2.1,
        hcnt]
    · rw [busCoalUpdated_count_coalLow, hcnt]
  · -- refill possible: the forge refills
    intro hlo hcoal
    have hre : s2.coalLevel ≤ 20 ∧ 5 ≤ s2.materials "coal" := by
      rw [hs2level, hs2mat]; exact ⟨hlo, hcoal⟩
    have hspec := coalRefill_spec s2 (by rw [hs2mat]; exact hcoal)
      (by rw [hs2level]; linarith)
    rw [key, if_pos hre]
    refine ⟨?_, ?_, ?_⟩
    · rw [busCoalUpdated_coalLevel, hspec.1]
    · rw [busCoalUpdated_materials, hspec.2.1, hs2mat]
    · rw [busCoalUpdated_coalWarned, hspec.2.2.1]
  · -- refill impossible: the level stays at the depleted value
    intro hlo hcoal
    have hre : ¬ (s2.coalLevel ≤ 20 ∧ 5 ≤ s2.materials "coal") := by
      rw [hs2mat]; rintro ⟨_, h2⟩; linarith
    have hwt : s2.coalWarned = true := by
      rw [hs2def]
      split
      · rfl
      · rename_i hnw
        cases hcw : s.coalWarned
        · exact absurd ⟨hlo, hcw⟩ hnw
        · rfl
    rw [key, if_neg hre]
    exact ⟨by rw [busCoalUpdated_coalLevel, hs2level],
      by rw [busCoalUpdated_materials, hs2mat],
      by rw [busCoalUpdated_coalWarned, hwt]⟩

/-- C4 (amended): the CoalSystem tick depletes by the fixed rate (clamped at
`0`); at or below the threshold it first emits the one-time low-coal event
whenever the warned-flag is clear — regardless of whether a refill is
possible — and then auto-refills exactly when the inventory holds at least
`coalPerRefill` coal material. -/
theorem C4_coal_update_behaviour (s : Shop) (h0 : 0 < s.coalLevel) :
    ∀ lv : ℚ, lv = (if s.coalLevel - 1/2 < 0 then 0 else s.coalLevel - 1/2) →
    (0 ≤ lv) ∧
    (20 < lv →
      coalUpdate s =
        { s with coalLevel := lv, log := s.log ++ [Ev.coalUpdated lv] }) ∧
    (lv ≤ 20 → s.coalWarned = false →
      ((coalUpdate s).log).count (Ev.coalLow lv) =
        (s.log).count (Ev.coalLow lv) + 1) ∧
    (lv ≤ 20 → s.coalWarned = true →
      ∀ x : ℚ, ((coalUpdate s).log).count (Ev.coalLow x) =
        (s.log).count (Ev.coalLow x)) ∧
    (lv ≤ 20 → 5 ≤ s.materials "coal" →
      (coalUpdate s).coalLevel = 100 ∧
      (coalUpdate s).materials "coal" = s.materials "coal" - 5 ∧
      (coalUpdate s).coalWarned = false) ∧
    (lv ≤ 20 → s.materials "coal" < 5 →
      (coalUpdate s).coalLevel = lv ∧
      (coalUpdate s).materials = s.materials ∧
      (coalUpdate s).coalWarned = true) :=
  coalUpdate_spec s h0

/-- C4 counterexample: with a refill clearly possible (`25 ≥ 5` coal in the
inventory) the update still emits the low-coal event before refilling, so
the event is not reserved for the refill-impossible case as the claim
states. -/
theorem C4_counterexample :
    5 ≤ coalStateC4.materials "coal" ∧
    (coalUpdate coalStateC4).coalLevel = 100 ∧
    (coalUpdate coalStateC4).materials "coal" = 20 ∧
    Ev.coalLow 20 ∈ (coalUpdate coalStateC4).log := by
  have hcl : coalStateC4.coalLevel = 41/2 := rfl
  have hcoal : coalStateC4.materials "coal" = 25 := rfl
  have hwarn : coalStateC4.coalWarned = false := rfl
  have hlog : coalStateC4.log = [] := rfl
  have h0 : 0 < coalStateC4.coalLevel := by rw [hcl]; norm_num
  have hlveq : (20 : ℚ) =
      (if coalStateC4.coalLevel - 1/2 < 0 then 0
       else coalStateC4.coalLevel - 1/2) := by
    rw [hcl]; norm_num
  have h := coalUpdate_spec coalStateC4 h0 20 hlveq
  have hcoal5 : 5 ≤ coalStateC4.materials "coal" := by rw [hcoal]; norm_num
  have hrefill := h.2.2.2.2.1 (by norm_num) hcoal5
  have hcount := h.2.2.1 (by norm_num) hwarn
  refine ⟨hcoal5, hrefill.1, ?_, ?_⟩
  · rw [hrefill.2.1, hcoal]; norm_num
  · by_contra hnotmem
    rw [List.count_eq_zero_of_not_mem hnotmem, hlog] at hcount
    simp at hcount

/-- C4 witness: the amended behaviour instantiated on the concrete forge
state of the counterexample — one new low-coal event and a performed
refill. -/
theorem C4_coal_update_behaviour_witness :
    ((coalUpdate coalStateC4).log).count (Ev.coalLow 20) =
      ((coalStateC4.log).count (Ev.coalLow 20)) + 1 ∧
    (coalUpdate coalStateC4).coalLevel = 100 := by
  have h := C4_coal_update_behaviour coalStateC4
    (by rw [show coalStateC4.coalLevel = 41/2 from rfl]; norm_num) 20
    (by rw [show coalStateC4.coalLevel = 41/2 from rfl]; norm_num)
  exact ⟨h.2.2.1 (by norm_num) rfl,
    (h.2.2.2.2.1 (by norm_num)
      (by rw [show coalStateC4.materials "coal" = 25 from rfl]; norm_num)).1⟩

/-! ## CraftingSystem computation helpers (C3, C5) -/

/-- With a positive level the coal-updated publication is a plain log append
(the pause listener is not triggered). -/
theorem busCoalUpdated_of_pos (s : Shop) (h : 0 < s.coalLevel) :
    busCoalUpdated s = logEv s (Ev.coalUpdated s.coalLevel) := by
  simp only [busCoalUpdated]
  rw [if_neg (by rintro ⟨h1, _⟩; simp only [logEv_coalLevel] at h1; linarith)]

/-- Full-state description of a successful `consumeCoal` that leaves the
level positive: only the level, the warned-flag and the log change. -/
theorem consumeCoal_spec (amount : ℚ) (s : Shop)
    (h2 : amount ≤ s.coalLevel) (hpos : 0 < s.coalLevel - amount) :
    ∃ (cw : Bool) (lg : List Ev),
      consumeCoal amount s =
        ({ s with
            coalLevel := s.coalLevel - amount
            coalWarned := cw
            log := lg }, true) := by
  simp only [consumeCoal]
  rw [if_neg (not_lt.mpr h2), if_neg (not_lt.mpr (le_of_lt hpos))]
  split
  · refine ⟨true, s.log ++ [Ev.coalLow (s.coalLevel - amount),
      Ev.coalConsumed amount, Ev.coalUpdated (s.coalLevel - amount)], ?_⟩
    rw [busCoalUpdated_of_pos _ (by simpa using hpos)]
    simp [logEv]
  · refine ⟨s.coalWarned, s.log ++ [Ev.coalConsumed amount,
      Ev.coalUpdated (s.coalLevel - amount)], ?_⟩
    rw [busCoalUpdated_of_pos _ (by simpa using hpos)]
    simp [logEv]

/-- Full-state description of a successful `startCrafting` of nails: the
per-unit iron requirement scaled by the quantity is debited, the flat coal
cost (2) is drawn once, and the job is placed as active or queued depending
on the presence of an active craft. -/
theorem startCrafting_nail (s : Shop) (q : ℚ) (w : Option String)
    (hnail : s.itemsData "nail" = some nailData)
    (hham : (s.tools "hammer").isSome = true)
    (htong : (s.tools "tongs").isSome = true)
    (hanv : (s.tools "anvil").isSome = true)
    (hguard : ¬ (s.materials "iron" = 0 ∨ s.materials "iron" < 1/5))
    (hguardq : ¬ (s.materials "iron" = 0 ∨ s.materials "iron" < 1/5 * q))
    (hcoal20 : 20 ≤ s.coalLevel) :
    ∃ (cw : Bool) (lg : List Ev),
      startCrafting s "nail" q w =
        (if s.currentCraft.isSome then
          { s with
            materials := setVal s.materials "iron" (s.materials "iron" - 1/5 * q)
            coalLevel := s.coalLevel - 2
            coalWarned := cw
            queue := s.queue ++ [nailJob q w]
            log := lg }
        else
          { s with
            materials := setVal s.materials "iron" (s.materials "iron" - 1/5 * q)
            coalLevel := s.coalLevel - 2
            coalWarned := cw
            currentCraft := some (nailJob q w)
            log := lg }, true) := by
  have hmt : getMissingTools s nailData = [] := by
    apply List.filter_eq_nil.mpr
    intro t ht
    have : toolRequirementsFor (categoryOrDefault nailData) =
        ["hammer", "tongs", "anvil"] := by
      simp [toolRequirementsFor, categoryOrDefault, nailData]
    rw [this] at ht
    fin_cases ht <;>
      simp [Option.isNone_eq_false_iff, Option.isSome_iff_ne_none.mp, *]
  have hhas : hasMaterials s.materials nailData.requiredMaterials = true := by
    simp only [nailData, hasMaterials, List.all_cons, List.all_nil,
      Bool.and_true]
    exact decide_eq_true hguard
  have hcoalb : hasEnoughCoal s = true := by
    simp [hasEnoughCoal]
    exact hcoal20
  simp only [startCrafting, hnail]
  rw [if_neg (by simp [nailData]), if_neg (by simp [hmt]),
    if_neg (by simp [hhas]), if_neg (by simp [hcoalb])]
  have hdebit : debitMaterials nailData.requiredMaterials q s =
      (logEv { s with
          materials := setVal s.materials "iron" (s.materials "iron" - 1/5 * q) }
        .inventoryUpdated, true) := by
    show debitMaterials [("iron", 1/5)] q s = _
    unfold debitMaterials
    rw [removeMaterial_success _ _ _ hguardq]
    rfl
  rw [hdebit]
  simp only []
  have hcu : coalUsageOrDefault nailData = 2 := by
    simp [coalUsageOrDefault, nailData]
  set s1 : Shop := logEv { s with
      materials := setVal s.materials "iron" (s.materials "iron" - 1/5 * q) }
    .inventoryUpdated with hs1def
  have hs1lvl : s1.coalLevel = s.coalLevel := rfl
  obtain ⟨cw, lg, hcc⟩ := consumeCoal_spec (coalUsageOrDefault nailData) s1
    (by rw [hs1lvl, hcu]; linarith) (by rw [hs1lvl, hcu]; linarith)
  rw [hcc]
  refine ⟨cw, ?_, ?_⟩
  · exact (if s.currentCraft.isSome then
      lg ++ [Ev.craftingQueued "nail"] else lg ++ [Ev.craftingStarted "nail"])
  · cases hcur : s.currentCraft with
    | none =>
      simp only [hs1def, hcur, logEv]
      rfl
    | some j =>
      simp only [hs1def, hcur, logEv]
      rfl

/-- C5: evaluation of the code at the failing input.  Starting a second nail
job with quantity 2 debits `2/5` iron (iron drops from `249/5` to `247/5`),
but `cancelQueuedCraft(0)` refunds only the per-unit amount `1/5`, leaving
`248/5` instead of the pre-debit `249/5`: the refund is not 100% of what the
queued job debited, contradicting the claim (and the source comment
"Refund all materials (100%)").  The other claimed effects hold: the active
job, the tools and the rest of the queue are untouched. -/
theorem C5_cancelQueuedCraft_partial_refund :
    (startCrafting c5afterFirst "nail" 2 none).2 = true ∧
    c5afterFirst.materials "iron" = 249/5 ∧
    c5afterSecond.materials "iron" = 247/5 ∧
    c5afterSecond.queue = [nailJob 2 none] ∧
    (cancelQueuedCraft 0 c5afterSecond).2 = true ∧
    c5Canceled.materials "iron" = 248/5 ∧
    c5Canceled.materials "iron" ≠ c5afterFirst.materials "iron" ∧
    c5Canceled.currentCraft = c5afterSecond.currentCraft ∧
    c5Canceled.queue = [] ∧
    c5Canceled.tools = c5afterSecond.tools := by
  have hi0 : initialShop.materials "iron" = 50 := rfl
  obtain ⟨cw1, lg1, h1⟩ := startCrafting_nail initialShop 1 none rfl rfl rfl rfl
    (by rw [hi0]; push_neg; norm_num)
    (by rw [hi0]; push_neg; norm_num)
    (by rw [show initialShop.coalLevel = (100 : ℚ) from rfl]; norm_num)
  rw [if_neg (by rw [show initialShop.currentCraft = none from rfl]; simp)] at h1
  have ha : c5afterFirst = { initialShop with
      materials := setVal initialShop.materials "iron"
        (initialShop.materials "iron" - 1/5 * 1)
      coalLevel := initialShop.coalLevel - 2
      coalWarned := cw1
      currentCraft := some (nailJob 1 none)
      log := lg1 } := by
    unfold c5afterFirst
    rw [h1]
  have hiron1 : c5afterFirst.materials "iron" = 249/5 := by
    rw [ha]
    show setVal initialShop.materials "iron"
      (initialShop.materials "iron" - 1/5 * 1) "iron" = 249/5
    rw [setVal_same, hi0]
    norm_num
  obtain ⟨cw2, lg2, h2⟩ := startCrafting_nail c5afterFirst 2 none
    (by rw [ha]; rfl) (by rw [ha]; rfl) (by rw [ha]; rfl) (by rw [ha]; rfl)
    (by rw [hiron1]; push_neg; norm_num)
    (by rw [hiron1]; push_neg; norm_num)
    (by rw [ha, show ({ initialShop with
        materials := setVal initialShop.materials "iron"
          (initialShop.materials "iron" - 1/5 * 1)
        coalLevel := initialShop.coalLevel - 2
        coalWarned := cw1
        currentCraft := some (nailJob 1 none)
        log := lg1 } : Shop).coalLevel = initialShop.coalLevel - 2 from rfl,
      show initialShop.coalLevel = (100 : ℚ) from rfl]; norm_num)
  rw [if_pos (by rw [ha]; rfl)] at h2
  have hb : c5afterSecond = { c5afterFirst with
      materials := setVal c5afterFirst.materials "iron"
        (c5afterFirst.materials "iron" - 1/5 * 2)
      coalLevel := c5afterFirst.coalLevel - 2
      coalWarned := cw2
      queue := c5afterFirst.queue ++ [nailJob 2 none]
      log := lg2 } := by
    unfold c5afterSecond
    rw [h2]
  have hiron2 : c5afterSecond.materials "iron" = 247/5 := by
    rw [hb]
    show setVal c5afterFirst.materials "iron"
      (c5afterFirst.materials "iron" - 1/5 * 2) "iron" = 247/5
    rw [setVal_same, hiron1]
    norm_num
  have hq : c5afterSecond.queue = [nailJob 2 none] := by
    rw [hb]
    show c5afterFirst.queue ++ [nailJob 2 none] = [nailJob 2 none]
    rw [ha]
    rfl
  have hget : c5afterSecond.queue.get? 0 = some (nailJob 2 none) := by
    rw [hq]
    rfl
  have hrefine : (addMaterial "iron" (1/5) c5afterSecond).1 =
      logEv { c5afterSecond with
        materials := setVal c5afterSecond.materials "iron"
          (c5afterSecond.materials "iron" + 1/5) } .inventoryUpdated := by
    unfold addMaterial
    rw [if_neg (by norm_num)]
  have hcancel : cancelQueuedCraft 0 c5afterSecond =
      (logEv (logEv { (addMaterial "iron" (1/5) c5afterSecond).1 with
          queue := ((addMaterial "iron" (1/5) c5afterSecond).1.queue).eraseIdx 0 }
        (.notifyInfo "Removed from crafting queue")) .craftingQueueUpdated,
        true) := by
    simp only [cancelQueuedCraft, hget]
    rfl
  have hq' : ((addMaterial "iron" (1/5) c5afterSecond).1.queue).eraseIdx 0 = [] := by
    rw [hrefine]
    show (c5afterSecond.queue).eraseIdx 0 = []
    rw [hq]
    rfl
  refine ⟨by rw [h2], hiron1, hiron2, hq, by rw [hcancel], ?_, ?_, ?_, ?_, ?_⟩
  · show c5Canceled.materials "iron" = 248/5
    unfold c5Canceled
    rw [hcancel]
    show (addMaterial "iron" (1/5) c5afterSecond).1.materials "iron" = 248/5
    rw [hrefine]
    show setVal c5afterSecond.materials "iron"
      (c5afterSecond.materials "iron" + 1/5) "iron" = 248/5
    rw [setVal_same, hiron2]
    norm_num
  · unfold c5Canceled
    rw [hcancel]
    show (addMaterial "iron" (1/5) c5afterSecond).1.materials "iron" ≠ _
    rw [hrefine]
    show setVal c5afterSecond.materials "iron"
      (c5afterSecond.materials "iron" + 1/5) "iron" ≠ c5afterFirst.materials "iron"
    rw [setVal_same, hiron2, hiron1]
    norm_num
  · unfold c5Canceled
    rw [hcancel]
    show (addMaterial "iron" (1/5) c5afterSecond).1.currentCraft = _
    rw [hrefine]
    rfl
  · unfold c5Canceled
    rw [hcancel]
    show ((addMaterial "iron" (1/5) c5afterSecond).1.queue).eraseIdx 0 = []
    exact hq'
  · unfold c5Canceled
    rw [hcancel]
    show (addMaterial "iron" (1/5) c5afterSecond).1.tools = _
    rw [hrefine]
    rfl

/-! ## C6: worker fatigue accrual -/

/-- The fatigue written by `increaseFatigue`: the task-dependent increment,
capped at the type maximum. -/
theorem increaseFatigue_fatigue (s : Shop) (w : Worker) :
    (increaseFatigue s w).2.fatigue =
      (fun inc : ℚ =>
        if w.wtype.maxFatigue < w.fatigue + inc then w.wtype.maxFatigue
        else w.fatigue + inc)
      (match w.currentTask with
        | some (WTask.crafting _) => 1/5 * w.wtype.fatigueRate
        | some WTask.coal => 1/20
        | none => 1/10) := by
  simp only [increaseFatigue]
  split <;> split <;> rfl

/-- The worker returned by `handleCraftingTask`: unchanged unless the
production queue was fully idle and the precondition check failed, in which
case the task is cleared. -/
theorem handleCraftingTask_worker (s : Shop) (w : Worker) (itemId : String) :
    (handleCraftingTask s w itemId).2 =
      if s.currentCraft = none ∧ s.queue = [] then
        (if (canCraft s itemId).1 then w
         else { w with currentTask := none, status := "idle" })
      else w := by
  simp only [handleCraftingTask]
  split
  · split <;> rfl
  · rfl

/-- C6 (amended): a working (not resting, below max fatigue) worker accrues,
after task handling: `0.2 × fatigueRate` when its crafting task survives
handling, the flat `0.1` default when the crafting task was cleared during
handling (idle queue but failing precondition check), a flat `0.05` with a
coal-monitoring task, and nothing at all when no task is assigned (the
update returns before the accrual step); always capped at the type
maximum. -/
theorem C6_worker_fatigue_accrual (s : Shop) (w : Worker)
    (hr : w.resting = false) (hf : w.fatigue < w.wtype.maxFatigue) :
    (w.currentTask = none → (updateWorker s w).2.fatigue = w.fatigue) ∧
    (w.currentTask = some WTask.coal →
      (updateWorker s w).2.fatigue =
        if w.wtype.maxFatigue < w.fatigue + 1/20 then w.wtype.maxFatigue
        else w.fatigue + 1/20) ∧
    (∀ itemId : String, w.currentTask = some (WTask.crafting itemId) →
      ((s.currentCraft = none ∧ s.queue = [] ∧ (canCraft s itemId).1 = false) →
        (updateWorker s w).2.fatigue =
          if w.wtype.maxFatigue < w.fatigue + 1/10 then w.wtype.maxFatigue
          else w.fatigue + 1/10) ∧
      ((¬ (s.currentCraft = none ∧ s.queue = []) ∨ (canCraft s itemId).1 = true) →
        (updateWorker s w).2.fatigue =
          if w.wtype.maxFatigue < w.fatigue + 1/5 * w.wtype.fatigueRate
          then w.wtype.maxFatigue
          else w.fatigue + 1/5 * w.wtype.fatigueRate)) := by
  have hnone : w.currentTask = none → updateWorker s w = (s, w) := by
    intro htask
    unfold updateWorker
    rw [if_neg (by rw [hr]; simp), if_neg (not_le.mpr hf)]
    simp only [htask]
  have hcoal : w.currentTask = some WTask.coal →
      updateWorker s w = increaseFatigue (handleCoalTask s w) w := by
    intro htask
    unfold updateWorker
    rw [if_neg (by rw [hr]; simp), if_neg (not_le.mpr hf)]
    simp only [htask]
  have hcraft : ∀ itemId : String,
      w.currentTask = some (WTask.crafting itemId) →
      updateWorker s w = increaseFatigue (handleCraftingTask s w itemId).1
        (handleCraftingTask s w itemId).2 := by
    intro itemId htask
    unfold updateWorker
    rw [if_neg (by rw [hr]; simp), if_neg (not_le.mpr hf)]
    simp only [htask]
  refine ⟨?_, ?_, ?_⟩
  · intro htask
    rw [hnone htask]
  · intro htask
    rw [hcoal htask, increaseFatigue_fatigue]
    simp only [htask]
  · intro itemId htask
    constructor
    · rintro ⟨hcc, hq, hcan⟩
      rw [hcraft itemId htask, handleCraftingTask_worker, if_pos ⟨hcc, hq⟩,
        if_neg (by rw [hcan]; simp), increaseFatigue_fatigue]
    · intro hcase
      rcases hcase with hni | hcan
      · rw [hcraft itemId htask, handleCraftingTask_worker, if_neg hni,
          increaseFatigue_fatigue]
        simp only [htask]
      · rw [hcraft itemId htask, handleCraftingTask_worker]
        by_cases hidle : s.currentCraft = none ∧ s.queue = []
        · rw [if_pos hidle, if_pos (by rw [hcan]), increaseFatigue_fatigue]
          simp only [htask]
        · rw [if_neg hidle, increaseFatigue_fatigue]
          simp only [htask]

/-- C6 counterexample: an idle worker (no task, not resting, fatigue below
maximum) accrues no fatigue at all on an update tick — not the claimed
baseline `0.1` — because `updateWorker` returns before the accrual step when
no task is assigned. -/
theorem C6_counterexample :
    idleWorker.resting = false ∧
    idleWorker.fatigue < idleWorker.wtype.maxFatigue ∧
    idleWorker.currentTask = none ∧
    (updateWorker initialShop idleWorker).2.fatigue = idleWorker.fatigue ∧
    idleWorker.fatigue + 1/10 ≠ idleWorker.fatigue := by
  refine ⟨rfl, ?_, rfl, ?_, ?_⟩
  · show (0 : ℚ) < 100
    norm_num
  · unfold updateWorker
    rw [if_neg (by rw [show idleWorker.resting = false from rfl]; simp),
      if_neg (by show ¬ ((100 : ℚ) ≤ 0); norm_num)]
    rfl
  · show (0 : ℚ) + 1/10 ≠ 0
    norm_num

/-- C6 witness: the amended accrual instantiated on the concrete
coal-monitoring apprentice — one tick adds exactly `0.05` fatigue. -/
theorem C6_worker_fatigue_accrual_witness :
    (updateWorker initialShop coalTaskWorker).2.fatigue = 1/20 := by
  have h := (C6_worker_fatigue_accrual initialShop coalTaskWorker rfl
    (by show (0 : ℚ) < 100; norm_num)).2.1 rfl
  rw [h]
  rw [if_neg (by show ¬ ((100 : ℚ) < 0 + 1/20); norm_num)]
  show (0 : ℚ) + 1/20 = 1/20
  norm_num

/-! ## C3: the nail production scenario -/

/-- `useTool` changes only the tool map and the log. -/
theorem useTool_frame (t : String) (a : ℚ) (s : Shop) :
    (useTool t a s).1.materials = s.materials ∧
    (useTool t a s).1.items = s.items ∧
    (useTool t a s).1.currentCraft = s.currentCraft ∧
    (useTool t a s).1.queue = s.queue ∧
    (useTool t a s).1.speedMul = s.speedMul ∧
    (useTool t a s).1.coalLevel = s.coalLevel ∧
    (useTool t a s).1.autoAddToStorefront = s.autoAddToStorefront ∧
    (useTool t a s).1.itemsData = s.itemsData := by
  unfold useTool
  rcases h : s.tools t with _ | tr
  · simp [h]
  · simp only [h]
    split <;> simp

/-- Any observation insensitive to single `useTool` calls is preserved by
the tool-wear fold of `useToolsForItem`. -/
theorem wearFold_pres {α : Type} (f : Shop → α)
    (hf : ∀ (t : String) (a : ℚ) (s : Shop), f (useTool t a s).1 = f s)
    (ts : List String) (a : ℚ) :
    ∀ s : Shop,
      f (ts.foldl (fun acc t =>
        if (acc.tools t).isSome then (useTool t a acc).1 else acc) s) = f s := by
  induction ts with
  | nil => intro s; rfl
  | cons t rest ih =>
    intro s
    simp only [List.foldl_cons]
    rw [ih]
    split
    · exact hf t a s
    · rfl

@[simp] theorem useToolsForItem_materials (s : Shop) (i : ItemData) :
    (useToolsForItem s i).materials = s.materials :=
  wearFold_pres Shop.materials (fun t a s => (useTool_frame t a s).1) _ _ s

@[simp] theorem useToolsForItem_items (s : Shop) (i : ItemData) :
    (useToolsForItem s i).items = s.items :=
  wearFold_pres Shop.items (fun t a s => (useTool_frame t a s).2.1) _ _ s

@[simp] theorem useToolsForItem_currentCraft (s : Shop) (i : ItemData) :
    (useToolsForItem s i).currentCraft = s.currentCraft :=
  wearFold_pres Shop.currentCraft (fun t a s => (useTool_frame t a s).2.2.1) _ _ s

@[simp] theorem useToolsForItem_queue (s : Shop) (i : ItemData) :
    (useToolsForItem s i).queue = s.queue :=
  wearFold_pres Shop.queue (fun t a s => (useTool_frame t a s).2.2.2.1) _ _ s

@[simp] theorem useToolsForItem_speedMul (s : Shop) (i : ItemData) :
    (useToolsForItem s i).speedMul = s.speedMul :=
  wearFold_pres Shop.speedMul (fun t a s => (useTool_frame t a s).2.2.2.2.1) _ _ s

@[simp] theorem useToolsForItem_coalLevel (s : Shop) (i : ItemData) :
    (useToolsForItem s i).coalLevel = s.coalLevel :=
  wearFold_pres Shop.coalLevel (fun t a s => (useTool_frame t a s).2.2.2.2.2.1) _ _ s

@[simp] theorem useToolsForItem_autoAdd (s : Shop) (i : ItemData) :
    (useToolsForItem s i).autoAddToStorefront = s.autoAddToStorefront :=
  wearFold_pres Shop.autoAddToStorefront
    (fun t a s => (useTool_frame t a s).2.2.2.2.2.2.1) _ _ s

@[simp] theorem useToolsForItem_itemsData (s : Shop) (i : ItemData) :
    (useToolsForItem s i).itemsData = s.itemsData :=
  wearFold_pres Shop.itemsData
    (fun t a s => (useTool_frame t a s).2.2.2.2.2.2.2) _ _ s

/-- `addItem` on a passing guard. -/
theorem addItem_success (n : String) (a : ℚ) (s : Shop) (h : ¬ a ≤ 0) :
    addItem n a s =
      (logEv { s with items := setVal s.items n (s.items n + a) }
        .inventoryUpdated, true) := by
  unfold addItem
  rw [if_neg h]

/-- One `update()` tick on an unpaused active job that neither runs out of
coal nor completes: progress advances by the speed multiplier and a progress
event is logged. -/
theorem craftingUpdate_active (t : Shop) (j : Job)
    (hc : t.currentCraft = some j) (hp : j.paused = false)
    (hcl : 20 ≤ t.coalLevel)
    (hnc : ¬ j.craftingTime ≤ j.progress + 1 * t.speedMul) :
    craftingUpdate t =
      logEv
        { t with currentCraft := some { j with progress := j.progress + 1 * t.speedMul } }
        (Ev.craftingProgress j.itemId (j.progress + 1 * t.speedMul)
          j.craftingTime) := by
  simp only [craftingUpdate, hc]
  rw [if_neg (by rw [hp]; simp)]
  rw [if_neg (by simp only [hasEnoughCoal, logEv_coalLevel,
    decide_eq_false_iff_not, not_not]; exact hcl)]
  rw [if_neg hnc]

/-- One `update()` tick on an unpaused active job that reaches its crafting
time: the job completes after the progress increment. -/
theorem craftingUpdate_completes (t : Shop) (j : Job)
    (hc : t.currentCraft = some j) (hp : j.paused = false)
    (hcl : 20 ≤ t.coalLevel)
    (hdone : j.craftingTime ≤ j.progress + 1 * t.speedMul) :
    craftingUpdate t =
      completeCrafting
        { t with currentCraft := some { j with progress := j.progress + 1 * t.speedMul } } := by
  simp only [craftingUpdate, hc]
  rw [if_neg (by rw [hp]; simp)]
  rw [if_neg (by simp only [hasEnoughCoal, logEv_coalLevel,
    decide_eq_false_iff_not, not_not]; exact hcl)]
  rw [if_pos hdone]

/-- Iterating `update()` below the crafting time only advances the progress
(at speed multiplier 1) and extends the log. -/
theorem craftingUpdate_iterate (t : Shop) (j : Job)
    (hc : t.currentCraft = some j) (hp : j.paused = false)
    (hcl : 20 ≤ t.coalLevel) (hsp : t.speedMul = 1) :
    ∀ k : ℕ, (j.progress + k < j.craftingTime) →
      ∃ lg : List Ev, craftingUpdate^[k] t =
        { t with
          currentCraft := some { j with progress := j.progress + (k:ℚ) }
          log := lg } := by
  intro k
  induction k with
  | zero =>
    intro _
    refine ⟨t.log, ?_⟩
    have hj : ({ j with progress := j.progress + ((0:ℕ):ℚ) } : Job) = j := by
      simp
    rw [Function.iterate_zero_apply, hj, ← hc]
  | succ k ih =>
    intro hk
    have hk' : j.progress + (k:ℚ) < j.craftingTime := by
      push_cast at hk
      linarith
    obtain ⟨lg, hlg⟩ := ih hk'
    rw [Function.iterate_succ_apply', hlg]
    have hck : ({ t with
        currentCraft := some { j with progress := j.progress + (k:ℚ) }
        log := lg } : Shop).currentCraft =
        some { j with progress := j.progress + (k:ℚ) } := rfl
    have hnc : ¬ ({ j with progress := j.progress + (k:ℚ) } : Job).craftingTime ≤
        ({ j with progress := j.progress + (k:ℚ) } : Job).progress +
          1 * ({ t with
            currentCraft := some { j with progress := j.progress + (k:ℚ) }
            log := lg } : Shop).speedMul := by
      show ¬ j.craftingTime ≤ (j.progress + (k:ℚ)) + 1 * t.speedMul
      rw [hsp]
      push_cast at hk
      intro hle
      linarith
    rw [craftingUpdate_active _ _ hck hp hcl hnc]
    refine ⟨lg ++ [Ev.craftingProgress j.itemId
      ((j.progress + (k:ℚ)) + 1 * t.speedMul) j.craftingTime], ?_⟩
    have hjob : ({ j with progress := (j.progress + (k:ℚ)) + 1 * t.speedMul } : Job) =
        { j with progress := j.progress + ((k+1:ℕ):ℚ) } := by
      have : (j.progress + (k:ℚ)) + 1 * t.speedMul = j.progress + ((k+1:ℕ):ℚ) := by
        rw [hsp]
        push_cast
        ring
      rw [this]
    show logEv { t with
        currentCraft := some
          { j with progress := (j.progress + (k:ℚ)) + 1 * t.speedMul }
        log := lg }
      (Ev.craftingProgress j.itemId ((j.progress + (k:ℚ)) + 1 * t.speedMul)
        j.craftingTime) = _
    rw [hjob]
    simp only [logEv]

/-- `completeCrafting` on a non-tool recipe with an empty queue and the
storefront auto-add off: tools wear (only the tool map and log change), the
output quantity is delivered to the item stock, and the shop goes idle. -/
theorem completeCrafting_spec (s : Shop) (job : Job)
    (hcc : s.currentCraft = some job)
    (hct : job.item.createsTool = none)
    (hqty : ¬ job.quantity ≤ 0)
    (hqueue : s.queue = [])
    (hauto : s.autoAddToStorefront = false) :
    (completeCrafting s).currentCraft = none ∧
    (completeCrafting s).queue = [] ∧
    (completeCrafting s).items =
      setVal s.items job.itemId (s.items job.itemId + job.quantity) ∧
    (completeCrafting s).materials = s.materials ∧
    (completeCrafting s).coalLevel = s.coalLevel ∧
    (completeCrafting s).speedMul = s.speedMul := by
  simp only [completeCrafting, hcc, hct]
  rw [addItem_success _ _ _ hqty]
  refine ⟨?_, ?_, ?_, ?_, ?_, ?_⟩ <;>
    simp [hauto, hqueue, logEv]

/-- C3: from an idle production queue with the required tools, at least
`0.2` iron, speed multiplier `1.0`, auto-add off and enough coal throughout
(level at least `22`, so at least the threshold `20` remains after the flat
draw of `2`), `startCrafting("nail", 1)` succeeds and immediately becomes
the active job, debits exactly `0.2` iron and nothing else, draws the
recipe's flat coal cost `2` exactly once, and after ten `update()` ticks the
job has completed and delivered `10` nails (batch size `10` × quantity `1`)
to the inventory, with no further coal or material movement. -/
theorem C3_nail_crafting_scenario (s : Shop)
    (hnail : s.itemsData "nail" = some nailData)
    (hcraft : s.currentCraft = none) (hqueue : s.queue = [])
    (hspeed : s.speedMul = 1) (hauto : s.autoAddToStorefront = false)
    (hham : (s.tools "hammer").isSome = true)
    (htong : (s.tools "tongs").isSome = true)
    (hanv : (s.tools "anvil").isSome = true)
    (hiron : 1/5 ≤ s.materials "iron")
    (hcoal : 22 ≤ s.coalLevel) :
    (startCrafting s "nail" 1 none).2 = true ∧
    (startCrafting s "nail" 1 none).1.currentCraft = some (nailJob 1 none) ∧
    (startCrafting s "nail" 1 none).1.materials "iron" =
      s.materials "iron" - 1/5 ∧
    (∀ n : String, n ≠ "iron" →
      (startCrafting s "nail" 1 none).1.materials n = s.materials n) ∧
    (startCrafting s "nail" 1 none).1.coalLevel = s.coalLevel - 2 ∧
    (craftingUpdate^[10] (startCrafting s "nail" 1 none).1).currentCraft
      = none ∧
    (craftingUpdate^[10] (startCrafting s "nail" 1 none).1).queue = [] ∧
    (craftingUpdate^[10] (startCrafting s "nail" 1 none).1).items "nail" =
      s.items "nail" + 10 ∧
    (craftingUpdate^[10] (startCrafting s "nail" 1 none).1).materials "iron" =
      s.materials "iron" - 1/5 ∧
    (∀ n : String, n ≠ "iron" →
      (craftingUpdate^[10] (startCrafting s "nail" 1 none).1).materials n =
        s.materials n) ∧
    (craftingUpdate^[10] (startCrafting s "nail" 1 none).1).coalLevel =
      s.coalLevel - 2 := by
  have hironpos : (0:ℚ) < s.materials "iron" := by linarith
  have hguard : ¬ (s.materials "iron" = 0 ∨ s.materials "iron" < 1/5) := by
    push_neg
    exact ⟨by linarith, by linarith⟩
  have hguardq : ¬ (s.materials "iron" = 0 ∨ s.materials "iron" < 1/5 * 1) := by
    push_neg
    exact ⟨by linarith, by linarith⟩
  obtain ⟨cw, lg, h1⟩ := startCrafting_nail s 1 none hnail hham htong hanv
    hguard hguardq (by linarith)
  rw [if_neg (by rw [hcraft]; simp)] at h1
  have hfirst :
      (startCrafting s "nail" 1 none).1 = { s with
        materials := setVal s.materials "iron" (s.materials "iron" - 1/5 * 1)
        coalLevel := s.coalLevel - 2
        coalWarned := cw
        currentCraft := some (nailJob 1 none)
        log := lg } := by
    rw [h1]
  have hcS1 : (startCrafting s "nail" 1 none).1.currentCraft =
      some (nailJob 1 none) := by
    rw [hfirst]
  have hpn : (nailJob 1 none).paused = false := rfl
  have hclS1 : 20 ≤ (startCrafting s "nail" 1 none).1.coalLevel := by
    rw [hfirst]
    show (20:ℚ) ≤ s.coalLevel - 2
    linarith
  have hspS1 : (startCrafting s "nail" 1 none).1.speedMul = 1 := by
    rw [hfirst]
    exact hspeed
  have hbound : (nailJob 1 none).progress + ((9:ℕ):ℚ) <
      (nailJob 1 none).craftingTime := by
    show (0:ℚ) + ((9:ℕ):ℚ) < 10
    push_cast
    norm_num
  obtain ⟨lg9, h9⟩ := craftingUpdate_iterate
    (startCrafting s "nail" 1 none).1 (nailJob 1 none)
    hcS1 hpn hclS1 hspS1 9 hbound
  have h10 : craftingUpdate^[10] (startCrafting s "nail" 1 none).1 =
      craftingUpdate (craftingUpdate^[9] (startCrafting s "nail" 1 none).1) :=
    Function.iterate_succ_apply' craftingUpdate 9 _
  rw [h9] at h10
  have hdone : ({ nailJob 1 none with
        progress := (nailJob 1 none).progress + ((9:ℕ):ℚ) } : Job).craftingTime ≤
      ({ nailJob 1 none with
        progress := (nailJob 1 none).progress + ((9:ℕ):ℚ) } : Job).progress +
        1 * ({ (startCrafting s "nail" 1 none).1 with
          currentCraft := some { nailJob 1 none with
            progress := (nailJob 1 none).progress + ((9:ℕ):ℚ) }
          log := lg9 } : Shop).speedMul := by
    show (10:ℚ) ≤ ((0:ℚ) + ((9:ℕ):ℚ)) + 1 * (startCrafting s "nail" 1 none).1.speedMul
    rw [hspS1]
    push_cast
    norm_num
  rw [craftingUpdate_completes _ _ rfl rfl
    (by show 20 ≤ (startCrafting s "nail" 1 none).1.coalLevel; exact hclS1)
    hdone] at h10
  have hspec := completeCrafting_spec
    ({ (startCrafting s "nail" 1 none).1 with
      currentCraft := some { nailJob 1 none with
        progress := (nailJob 1 none).progress + ((9:ℕ):ℚ) +
          1 * (startCrafting s "nail" 1 none).1.speedMul }
      log := lg9 } : Shop)
    ({ nailJob 1 none with
      progress := (nailJob 1 none).progress + ((9:ℕ):ℚ) +
        1 * (startCrafting s "nail" 1 none).1.speedMul } : Job)
    rfl rfl
    (by show ¬ (10 * 1 : ℚ) ≤ 0; norm_num)
    (by show (startCrafting s "nail" 1 none).1.queue = []
        rw [hfirst]
        exact hqueue)
    (by show (startCrafting s "nail" 1 none).1.autoAddToStorefront = false
        rw [hfirst]
        exact hauto)
  refine ⟨by rw [h1], hcS1, ?_, ?_, ?_, ?_, ?_, ?_, ?_, ?_, ?_⟩
  · rw [hfirst]
    show setVal s.materials "iron" (s.materials "iron" - 1/5 * 1) "iron" = _
    rw [setVal_same]
    ring
  · intro n hn
    rw [hfirst]
    show setVal s.materials "iron" (s.materials "iron" - 1/5 * 1) n = _
    rw [setVal_other _ _ _ _ hn]
  · rw [hfirst]
  · rw [h10]
    exact hspec.1
  · rw [h10]
    exact hspec.2.1
  · rw [h10]
    refine (congrFun hspec.2.2.1 "nail").trans ?_
    show setVal ((startCrafting s "nail" 1 none).1.items) "nail"
      ((startCrafting s "nail" 1 none).1.items "nail" + (10 * 1 : ℚ)) "nail" = _
    rw [setVal_same, hfirst]
    show s.items "nail" + 10 * 1 = s.items "nail" + 10
    norm_num
  · rw [h10]
    refine (congrFun hspec.2.2.2.1 "iron").trans ?_
    show (startCrafting s "nail" 1 none).1.materials "iron" = _
    rw [hfirst]
    show setVal s.materials "iron" (s.materials "iron" - 1/5 * 1) "iron" = _
    rw [setVal_same]
    ring
  · intro n hn
    rw [h10]
    refine (congrFun hspec.2.2.2.1 n).trans ?_
    show (startCrafting s "nail" 1 none).1.materials n = _
    rw [hfirst]
    show setVal s.materials "iron" (s.materials "iron" - 1/5 * 1) n = _
    rw [setVal_other _ _ _ _ hn]
  · rw [h10]
    refine hspec.2.2.2.2.1.trans ?_
    show (startCrafting s "nail" 1 none).1.coalLevel = _
    rw [hfirst]

/-- Witness for C3: from the freshly constructed shop (50 iron, coal level
100, hammer/tongs/anvil present, idle queue), `startCrafting("nail", 1)`
succeeds and ten ticks later 10 nails have been delivered. -/
theorem C3_nail_crafting_scenario_witness :
    (startCrafting initialShop "nail" 1 none).2 = true ∧
    (startCrafting initialShop "nail" 1 none).1.materials "iron" =
      initialShop.materials "iron" - 1/5 ∧
    (startCrafting initialShop "nail" 1 none).1.coalLevel =
      initialShop.coalLevel - 2 ∧
    (craftingUpdate^[10] (startCrafting initialShop "nail" 1 none).1).currentCraft
      = none ∧
    (craftingUpdate^[10] (startCrafting initialShop "nail" 1 none).1).items "nail"
      = initialShop.items "nail" + 10 := by
  have h := C3_nail_crafting_scenario initialShop rfl rfl rfl rfl rfl rfl rfl rfl
    (by show (1:ℚ)/5 ≤ 50; norm_num)
    (by show (22:ℚ) ≤ 100; norm_num)
  exact ⟨h.1, h.2.2.1, h.2.2.2.2.1, h.2.2.2.2.2.1, h.2.2.2.2.2.2.2.1⟩

end WB
